import Mathlib

/-! # Task-tracking backend (`src/backend/server.js`)

A shallow embedding of the Express request handlers and of the two SQLite
relations they work on.  Handlers are pure functions from a request and a
store to a response and a new store.  What the handlers delegate to libraries
(bcrypt, jsonwebtoken, the clock behind `CURRENT_TIMESTAMP`, SQLite's reading
of the `:id` path segment, the text SQLite writes for a `REAL`) is taken as a
parameter, so every theorem holds for all behaviours of those libraries.
-/

namespace TaskServer

/-! ## JavaScript values -/

/-- The JSON primitives a request body or query field can hold, with the
`undefined` of an absent key and the `NaN` that `parseInt` can produce.
Numbers are the whole ones; fractions, arrays and objects are left out. -/
inductive JsVal where
  | undefined
  | null
  | bool (b : Bool)
  | num (n : Int)
  | nan
  | str (s : String)
  deriving DecidableEq, Repr

/-- JavaScript truthiness, as used by `if (x)` and `!x`. -/
def JsVal.truthy : JsVal → Bool
  | .undefined => false
  | .null => false
  | .bool b => b
  | .num n => n != 0
  | .nan => false
  | .str s => s != ""

/-- A query-string or path value: absent (`undefined`) or a string. -/
def ofQuery : Option String → JsVal
  | none => .undefined
  | some s => .str s

/-- Code points of `StrWhiteSpaceChar`, skipped by `parseInt` before the numeral. -/
def isJsWhiteSpace (c : Char) : Bool :=
  let n := c.toNat
  n = 9 || n = 10 || n = 11 || n = 12 || n = 13 || n = 32 || n = 160 || n = 5760
    || (8192 ≤ n && n ≤ 8202) || n = 8232 || n = 8233 || n = 8239 || n = 8287
    || n = 12288 || n = 65279

/-- Value of a character as a digit of the given radix (10 or 16). -/
def digitValue (radix : Nat) (c : Char) : Option Nat :=
  let n := c.toNat
  if 48 ≤ n ∧ n ≤ 57 then some (n - 48)
  else if radix = 16 ∧ 97 ≤ n ∧ n ≤ 102 then some (n - 87)
  else if radix = 16 ∧ 65 ≤ n ∧ n ≤ 70 then some (n - 55)
  else none

/-- Reads the longest prefix of radix digits: the accumulated value and how
many digits were read. -/
def readDigits (radix : Nat) : List Char → Nat → Nat → Nat × Nat
  | [], acc, cnt => (acc, cnt)
  | c :: cs, acc, cnt =>
    match digitValue radix c with
    | some d => readDigits radix cs (acc * radix + d) (cnt + 1)
    | none => (acc, cnt)

/-- Counts the binary digits of `n`; `fuel` bounds the steps. -/
def bitsOf : Nat → Nat → Nat
  | 0, _ => 0
  | fuel + 1, n => if n = 0 then 0 else bitsOf fuel (n / 2) + 1

/-- The number of binary digits of `n`. -/
def bitLength (n : Nat) : Nat :=
  bitsOf n n

/-- The whole number a JavaScript number holds for the exact value `n`: `n`
itself below 2^53, beyond that the nearest number with 53 significant bits,
ties to the even one. Past the largest double the JavaScript value is
`Infinity`, which storage refuses like the whole number kept here. -/
def toDouble (n : Nat) : Nat :=
  if n < 9007199254740992 then n
  else
    let e := bitLength n - 53
    let q := n / 2 ^ e
    let r := n % 2 ^ e
    let up := decide (2 ^ e < 2 * r) || (decide (2 * r = 2 ^ e) && decide (q % 2 = 1))
    (if up then q + 1 else q) * 2 ^ e

/-- Numeral part of `parseInt`, after white space and sign are removed: an
optional `0x`/`0X` switches to radix 16; no digit at all gives `NaN`; the
value of the digits is rounded to a JavaScript number. -/
def parseDigits (sign : Int) (cs : List Char) : JsVal :=
  let (radix, rest) :=
    match cs with
    | '0' :: 'x' :: r => (16, r)
    | '0' :: 'X' :: r => (16, r)
    | _ => (10, cs)
  let (v, cnt) := readDigits radix rest 0 0
  if cnt = 0 then .nan else .num (sign * (toDouble v : Int))

/-- `parseInt(string)` with no radix argument, on a string. -/
def parseIntStr (s : String) : JsVal :=
  match s.data.dropWhile isJsWhiteSpace with
  | '-' :: cs => parseDigits (-1) cs
  | '+' :: cs => parseDigits 1 cs
  | cs => parseDigits 1 cs

/-- `parseInt(x)`: the argument is first converted to a string. An integer
number prints as its decimal numeral (magnitude below 10^21) and reads back as
itself; `undefined`, `null`, booleans and `NaN` print as words and give `NaN`. -/
def parseInt : JsVal → JsVal
  | .str s => parseIntStr s
  | .num n => .num n
  | _ => .nan

/-! ## The store -/

/-- A row of `users`. -/
structure User where
  id : Nat
  username : String
  email : String
  password : String
  created_at : Nat
  deriving DecidableEq, Repr

/-- A row of `tasks`. The four `TEXT` columns hold SQL `NULL` (`none`) or text. -/
structure Task where
  id : Nat
  title : Option String
  description : Option String
  status : Option String
  priority : Option String
  user_id : Nat
  created_at : Nat
  updated_at : Nat
  deriving DecidableEq, Repr

/-- The database: both relations in rowid order, and the `AUTOINCREMENT`
counters (`sqlite_sequence`) of the two tables. -/
structure Store where
  users : List User
  tasks : List Task
  userSeq : Nat
  taskSeq : Nat
  deriving DecidableEq, Repr

/-- Whether the driver binds a number as a 32-bit integer; every other number
is bound as a `REAL`. -/
def isInt32 (n : Int) : Bool :=
  decide (-2147483648 ≤ n) && decide (n ≤ 2147483647)

/-- What SQLite stores when a JavaScript value is bound to a `TEXT` column:
`undefined`, `null` and `NaN` become `NULL`, a boolean is bound as the integer
1 or 0, and a number is converted to text by the column affinity: a 32-bit
integer to its decimal numeral, any other number to the text SQLite writes for
the `REAL` (`3000000000.0` for 3000000000), which is the parameter `realText`. -/
def bindText (realText : Int → String) : JsVal → Option String
  | .undefined => none
  | .null => none
  | .nan => none
  | .bool b => some (if b then "1" else "0")
  | .num n => some (if isInt32 n then toString n else realText n)
  | .str s => some s

/-- Evaluates `col = ?` for a `TEXT` column: never true against `NULL`. -/
def eqText (realText : Int → String) (col : Option String) (param : JsVal) : Bool :=
  match bindText realText param with
  | none => false
  | some s => col == some s

/-- Evaluates `col = ?` for an `INTEGER` column against a bound number. -/
def eqInt (col : Nat) (param : JsVal) : Bool :=
  param == .num (col : Int)

/-- The decoded payload of a session token, `req.user`. -/
structure Claims where
  id : Nat
  username : JsVal
  deriving DecidableEq, Repr

/-- Ways `jwt.verify` fails. -/
inductive JwtError where
  | TokenExpiredError
  | JsonWebTokenError
  | NotBeforeError
  deriving DecidableEq, Repr

/-- The libraries the handlers call: bcrypt and jsonwebtoken. The clock is an
argument of `sign` and `verify` (issue time, expiry check). -/
structure Crypto where
  hash : String → String
  compare : String → String → Bool
  sign : Claims → Nat → String
  verify : String → Nat → Except JwtError Claims

/-! ## Responses -/

/-- The `user` object of the register and login responses. -/
structure UserSummary where
  id : Nat
  username : JsVal
  email : JsVal
  deriving DecidableEq, Repr

/-- The `task` object of the create response: the request's values echoed. -/
structure TaskEcho where
  id : Nat
  title : JsVal
  description : JsVal
  status : JsVal
  priority : JsVal
  deriving DecidableEq, Repr

/-- The row returned by the statistics query: a number or SQL `NULL` per column. -/
structure StatsRow where
  total_tasks : Option Int
  completed_tasks : Option Int
  in_progress_tasks : Option Int
  pending_tasks : Option Int
  high_priority_tasks : Option Int
  deriving DecidableEq, Repr

/-- JSON bodies the handlers send. -/
inductive Body where
  | error (error : String)
  | message (message : String)
  | auth (message : String) (token : String) (user : UserSummary)
  | task (row : Task)
  | tasks (tasks : List Task) (total : Nat)
  | created (message : String) (task : TaskEcho)
  | stats (row : StatsRow)
  deriving DecidableEq, Repr

/-- An HTTP response: status code and JSON body. -/
structure Response where
  status : Nat
  body : Body
  deriving DecidableEq, Repr

/-! ## Database initialisation (lines 22-56) -/

/-- The five sample rows inserted at start-up, all owned by user 1. -/
def sampleTasks (t0 : Nat) : List Task :=
  [ ⟨1, some "Setup Development Environment", some "Configure Node.js, React, and database",
      some "completed", some "high", 1, t0, t0⟩,
    ⟨2, some "Implement Authentication", some "Create login and registration system",
      some "in-progress", some "high", 1, t0, t0⟩,
    ⟨3, some "Design API Endpoints", some "Define REST API structure",
      some "pending", some "medium", 1, t0, t0⟩,
    ⟨4, some "Create Frontend Components", some "Build React components for UI",
      some "pending", some "medium", 1, t0, t0⟩,
    ⟨5, some "Setup Database", some "Configure SQLite database with tables",
      some "completed", some "high", 1, t0, t0⟩ ]

/-- The store after `db.serialize` has run on an empty database file at time `t0`. -/
def seeded (k : Crypto) (t0 : Nat) : Store :=
  { users := [⟨1, "admin", "admin@example.com", k.hash "password123", t0⟩]
    tasks := sampleTasks t0
    userSeq := 1
    taskSeq := 5 }

/-! ## Authentication middleware (lines 59-74) -/

/-- JavaScript `s.split(' ')` on the characters of a string. -/
def splitSpace : List Char → List (List Char)
  | [] => [[]]
  | c :: cs =>
    if c = ' ' then [] :: splitSpace cs
    else
      match splitSpace cs with
      | [] => [[c]]
      | w :: ws => (c :: w) :: ws

/-- The value of `authHeader && authHeader.split(' ')[1]`: `none` is
`undefined`. An empty header is falsy and is itself the value. -/
def readToken (authHeader : Option String) : Option String :=
  match authHeader with
  | none => none
  | some h =>
    if h = "" then some ""
    else (splitSpace h.data)[1]? |>.map String.mk

/-- The middleware `authenticateToken`: `next` is the route handler, which
receives the verified claims as `req.user`. -/
def authenticateToken (k : Crypto) (now : Nat) (authHeader : Option String)
    (next : Claims → Store → Response × Store) (s : Store) : Response × Store :=
  match readToken authHeader with
  | none => (⟨401, .error "Access token required"⟩, s)
  | some token =>
    if token = "" then (⟨401, .error "Access token required"⟩, s)
    else
      match k.verify token now with
      | .error _ => (⟨403, .error "Invalid token"⟩, s)
      | .ok user => next user s

/-! ## Authentication routes (lines 87-157) -/

/-- Whether inserting `(username, email)` violates a `UNIQUE` constraint of `users`. -/
def uniqueViolation (users : List User) (username email : String) : Bool :=
  users.any (fun u => u.username == username || u.email == email)

/-- Handler of `POST /api/auth/register`. The three fields are any JSON values.
`bcrypt.hash` takes a string only: for any other password it rejects, and the
`catch` answers 500 `Server error`. The token and the summary carry the
request's username and email as they came; the row holds what SQLite stores
for them in its `TEXT` columns. An insert refused for another reason than
`UNIQUE` is answered 500 `Database error`. -/
def register (k : Crypto) (realText : Int → String) (now : Nat)
    (username email password : JsVal) (s : Store) : Response × Store :=
  if !username.truthy || !email.truthy || !password.truthy then
    (⟨400, .error "All fields are required"⟩, s)
  else
    match password with
    | .str pw =>
      let hashedPassword := k.hash pw
      match bindText realText username, bindText realText email with
      | some u, some e =>
        if uniqueViolation s.users u e then
          (⟨400, .error "Username or email already exists"⟩, s)
        else
          let lastID := s.userSeq + 1
          let token := k.sign ⟨lastID, username⟩ now
          (⟨201, .auth "User created successfully" token ⟨lastID, username, email⟩⟩,
            { s with
              users := s.users ++ [⟨lastID, u, e, hashedPassword, now⟩]
              userSeq := lastID })
      | _, _ => (⟨500, .error "Database error"⟩, s)
    | _ => (⟨500, .error "Server error"⟩, s)

/-- The row `db.get` yields for `SELECT * FROM users WHERE username = ? OR email = ?`.
SQLite answers the `OR` over the two unique columns from their indexes, the
username index first: a row matching by username comes before a row matching
by email, whatever their ids. -/
def findUser (realText : Int → String) (users : List User) (p1 p2 : JsVal) : Option User :=
  match users.find? (fun u => eqText realText (some u.username) p1) with
  | some user => some user
  | none => users.find? (fun u => eqText realText (some u.email) p2)

/-- Handler of `POST /api/auth/login`. It only reads the store. `none` is the
case in which no response is sent: `bcrypt.compare` rejects a password that is
not a string, inside the `db.get` callback, where no `catch` applies. -/
def login (k : Crypto) (realText : Int → String) (now : Nat) (username password : JsVal)
    (s : Store) : Option Response :=
  if !username.truthy || !password.truthy then
    some ⟨400, .error "Username and password are required"⟩
  else
    match findUser realText s.users username username with
    | none => some ⟨401, .error "Invalid credentials"⟩
    | some user =>
      match password with
      | .str pw =>
        let isValidPassword := k.compare pw user.password
        if !isValidPassword then some ⟨401, .error "Invalid credentials"⟩
        else
          let token := k.sign ⟨user.id, .str user.username⟩ now
          some ⟨200, .auth "Login successful" token
            ⟨user.id, .str user.username, .str user.email⟩⟩
      | _ => none

/-! ## `GET /api/tasks` (lines 160-185) -/

/-- The query string of a list request: each key absent or a string. -/
structure ListQuery where
  status : Option String
  priority : Option String
  limit : Option String
  offset : Option String
  deriving DecidableEq, Repr

/-- A destructuring default `x = d` on a query key: it applies when the key is
absent. -/
def withDefault (v : Option String) (d : Int) : JsVal :=
  match v with
  | none => .num d
  | some x => .str x

/-- The SQL text and the parameter array the list handler assembles. -/
def buildListQuery (user : Claims) (q : ListQuery) : String × List JsVal :=
  let status := ofQuery q.status
  let priority := ofQuery q.priority
  let limit := withDefault q.limit 50
  let offset := withDefault q.offset 0
  let query := "SELECT * FROM tasks WHERE user_id = ?"
  let params := [JsVal.num user.id]
  let (query, params) :=
    if status.truthy then (query ++ " AND status = ?", params ++ [status]) else (query, params)
  let (query, params) :=
    if priority.truthy then (query ++ " AND priority = ?", params ++ [priority])
    else (query, params)
  (query ++ " ORDER BY created_at DESC LIMIT ? OFFSET ?",
    params ++ [parseInt limit, parseInt offset])

/-- SQLite's `LIMIT l OFFSET o`: a negative offset counts as 0 and a negative
limit is no limit. -/
def page (l o : Int) (rows : List Task) : List Task :=
  let rest := rows.drop o.toNat
  if l < 0 then rest else rest.take l.toNat

/-- Order of `ORDER BY created_at DESC`. -/
def newerFirst (a b : Task) : Prop := b.created_at ≤ a.created_at

instance : DecidableRel newerFirst :=
  fun a b => inferInstanceAs (Decidable (b.created_at ≤ a.created_at))

instance : IsTotal Task newerFirst :=
  ⟨fun a b => Nat.le_total b.created_at a.created_at⟩

instance : IsTrans Task newerFirst :=
  ⟨fun _ _ _ h1 h2 => Nat.le_trans h2 h1⟩

/-- Whether SQLite takes a bound whole number as `LIMIT` or `OFFSET`: it has to
convert to a 64-bit integer strictly inside the range. -/
def fitsInt64 (n : Int) : Bool :=
  decide (-9223372036854775808 < n) && decide (n < 9223372036854775807)

/-- Evaluation of the `SELECT` over `tasks`: rows of the owner, narrowed by the
optional equality filters, ordered, then paged. A `LIMIT` or `OFFSET` that is
not a number, or does not fit a 64-bit integer, is a datatype mismatch,
reported as `none`. -/
def selectTasks (realText : Int → String) (rows : List Task) (uid : JsVal)
    (status priority : Option JsVal)
    (limit offset : JsVal) : Option (List Task) :=
  match limit, offset with
  | .num l, .num o =>
    let hit := rows.filter (fun t =>
      eqInt t.user_id uid
        && (match status with
            | none => true
            | some v => eqText realText t.status v)
        && (match priority with
            | none => true
            | some v => eqText realText t.priority v))
    if fitsInt64 l && fitsInt64 o then some (page l o (hit.insertionSort newerFirst)) else none
  | _, _ => none

/-- The `db.all` call of the list handler: the four statements the handler can
issue are recognised by their text and run on the bound parameters; `none` is
the callback's `err`. -/
def dbAllTasks (realText : Int → String) (sql : String) (params : List JsVal)
    (rows : List Task) : Option (List Task) :=
  if sql = "SELECT * FROM tasks WHERE user_id = ? ORDER BY created_at DESC LIMIT ? OFFSET ?" then
    match params with
    | [u, l, o] => selectTasks realText rows u none none l o
    | _ => none
  else if sql = "SELECT * FROM tasks WHERE user_id = ? AND status = ? ORDER BY created_at DESC LIMIT ? OFFSET ?" then
    match params with
    | [u, st, l, o] => selectTasks realText rows u (some st) none l o
    | _ => none
  else if sql = "SELECT * FROM tasks WHERE user_id = ? AND priority = ? ORDER BY created_at DESC LIMIT ? OFFSET ?" then
    match params with
    | [u, pr, l, o] => selectTasks realText rows u none (some pr) l o
    | _ => none
  else if sql = "SELECT * FROM tasks WHERE user_id = ? AND status = ? AND priority = ? ORDER BY created_at DESC LIMIT ? OFFSET ?" then
    match params with
    | [u, st, pr, l, o] => selectTasks realText rows u (some st) (some pr) l o
    | _ => none
  else none

/-- Handler of `GET /api/tasks`. It only reads the store. -/
def getTasks (realText : Int → String) (user : Claims) (q : ListQuery) (s : Store) : Response :=
  let (query, params) := buildListQuery user q
  match dbAllTasks realText query params s.tasks with
  | none => ⟨500, .error "Database error"⟩
  | some tasks => ⟨200, .tasks tasks tasks.length⟩

/-! ## `GET /api/tasks/:id` (lines 187-205) -/

/-- Evaluates `id = ?` against the bound path segment: `idOf` is SQLite's
reading of a text as a row id under the column's numeric affinity. -/
def eqId (idOf : String → Option Nat) (col : Nat) (param : JsVal) : Bool :=
  match param with
  | .str v => idOf v == some col
  | .num n => n == (col : Int)
  | _ => false

/-- The `WHERE id = ? AND user_id = ?` clause shared by get, update and delete. -/
def ownedRow (idOf : String → Option Nat) (pid puid : JsVal) (t : Task) : Bool :=
  eqId idOf t.id pid && eqInt t.user_id puid

/-- Handler of `GET /api/tasks/:id`. It only reads the store. -/
def getTaskById (idOf : String → Option Nat) (user : Claims) (taskId : String)
    (s : Store) : Response :=
  match s.tasks.find? (ownedRow idOf (.str taskId) (.num user.id)) with
  | none => ⟨404, .error "Task not found"⟩
  | some task => ⟨200, .task task⟩

/-! ## `POST /api/tasks` (lines 207-228) -/

/-- The JSON body of a create or update request: the four fields read from it. -/
structure TaskBody where
  title : JsVal
  description : JsVal
  status : JsVal
  priority : JsVal
  deriving DecidableEq, Repr

/-- A destructuring default `x = d`: it applies to `undefined` only. -/
def orDefault (x d : JsVal) : JsVal :=
  if x = .undefined then d else x

/-- Handler of `POST /api/tasks`. -/
def postTask (realText : Int → String) (now : Nat) (user : Claims) (b : TaskBody)
    (s : Store) : Response × Store :=
  let status := orDefault b.status (.str "pending")
  let priority := orDefault b.priority (.str "medium")
  if !b.title.truthy then (⟨400, .error "Title is required"⟩, s)
  else
    let lastID := s.taskSeq + 1
    let row : Task :=
      { id := lastID
        title := bindText realText b.title
        description := bindText realText b.description
        status := bindText realText status
        priority := bindText realText priority
        user_id := user.id
        created_at := now
        updated_at := now }
    (⟨201, .created "Task created successfully" ⟨lastID, b.title, b.description, status, priority⟩⟩,
      { s with tasks := s.tasks ++ [row], taskSeq := lastID })

/-! ## `PUT /api/tasks/:id` (lines 230-276) -/

/-- The arrays `updates` and `params` the update handler assembles. -/
def buildUpdate (user : Claims) (taskId : String) (b : TaskBody) : List String × List JsVal :=
  let updates : List String := []
  let params : List JsVal := []
  let (updates, params) :=
    if b.title.truthy then (updates ++ ["title = ?"], params ++ [b.title])
    else (updates, params)
  let (updates, params) :=
    if b.description ≠ .undefined then (updates ++ ["description = ?"], params ++ [b.description])
    else (updates, params)
  let (updates, params) :=
    if b.status.truthy then (updates ++ ["status = ?"], params ++ [b.status])
    else (updates, params)
  let (updates, params) :=
    if b.priority.truthy then (updates ++ ["priority = ?"], params ++ [b.priority])
    else (updates, params)
  (updates ++ ["updated_at = CURRENT_TIMESTAMP"], params ++ [.str taskId, .num user.id])

/-- The statement text handed to `db.run` by the update handler. -/
def updateSql (updates : List String) : String :=
  "UPDATE tasks SET " ++ ", ".intercalate updates ++ " WHERE id = ? AND user_id = ?"

/-- One item of a `SET` list: a column given a bound parameter, or the
timestamp refresh, which takes none. -/
inductive SetItem where
  | title
  | description
  | status
  | priority
  | touch
  deriving DecidableEq, Repr

/-- How a `SET` item is written. -/
def SetItem.text : SetItem → String
  | .title => "title = ?"
  | .description => "description = ?"
  | .status => "status = ?"
  | .priority => "priority = ?"
  | .touch => "updated_at = CURRENT_TIMESTAMP"

/-- Reads a `SET` item back from its text. -/
def SetItem.parse (t : String) : Option SetItem :=
  [SetItem.title, .description, .status, .priority, .touch].find? (fun i => i.text == t)

/-- Runs a `SET` list on one row, consuming one parameter per `?`; returns the
new row and the parameters left for the `WHERE` clause. -/
def applySets (realText : Int → String) (now : Nat) :
    List SetItem → List JsVal → Task → Option (Task × List JsVal)
  | [], params, row => some (row, params)
  | .touch :: is, params, row => applySets realText now is params { row with updated_at := now }
  | _ :: _, [], _ => none
  | .title :: is, v :: params, row =>
    applySets realText now is params { row with title := bindText realText v }
  | .description :: is, v :: params, row =>
    applySets realText now is params { row with description := bindText realText v }
  | .status :: is, v :: params, row =>
    applySets realText now is params { row with status := bindText realText v }
  | .priority :: is, v :: params, row =>
    applySets realText now is params { row with priority := bindText realText v }

/-- The outcome of `UPDATE tasks SET ... WHERE id = ? AND user_id = ?` on one
row: the `WHERE` parameters are those left after the `SET` list. -/
def updateRow (idOf : String → Option Nat) (realText : Int → String) (now : Nat)
    (sets : List SetItem)
    (params : List JsVal) (row : Task) : Option (Task × Bool) :=
  match applySets realText now sets params row with
  | some (row', [pid, puid]) =>
    if ownedRow idOf pid puid row then some (row', true) else some (row, false)
  | _ => none

/-- Reads the `SET` list back from the items the handler wrote. -/
def parseSets : List String → Option (List SetItem)
  | [] => some []
  | t :: ts =>
    match SetItem.parse t, parseSets ts with
    | some i, some is => some (i :: is)
    | _, _ => none

/-- Runs the update over the table: the new rows and the number of rows changed. -/
def updateRows (idOf : String → Option Nat) (realText : Int → String) (now : Nat)
    (sets : List SetItem)
    (params : List JsVal) : List Task → Option (List Task × Nat)
  | [] => some ([], 0)
  | r :: rs =>
    match updateRow idOf realText now sets params r, updateRows idOf realText now sets params rs
        with
    | some (r', hit), some (rs', n) => some (r' :: rs', if hit then n + 1 else n)
    | _, _ => none

/-- The `db.run` call of the update handler, given the `SET` list as the
handler wrote it: the new table and `this.changes`; `none` is the callback's
`err` (an unknown item or a parameter count that does not fit). -/
def dbRunUpdate (idOf : String → Option Nat) (realText : Int → String) (now : Nat)
    (updates : List String)
    (params : List JsVal) (rows : List Task) : Option (List Task × Nat) :=
  match parseSets updates with
  | none => none
  | some sets => updateRows idOf realText now sets params rows

/-- Handler of `PUT /api/tasks/:id`. -/
def putTask (idOf : String → Option Nat) (realText : Int → String) (now : Nat) (user : Claims)
    (taskId : String)
    (b : TaskBody) (s : Store) : Response × Store :=
  let (updates, params) := buildUpdate user taskId b
  if updates.length = 1 then (⟨400, .error "No fields to update"⟩, s)
  else
    match dbRunUpdate idOf realText now updates params s.tasks with
    | none => (⟨500, .error "Database error"⟩, s)
    | some (rows, changes) =>
      if changes = 0 then (⟨404, .error "Task not found"⟩, { s with tasks := rows })
      else (⟨200, .message "Task updated successfully"⟩, { s with tasks := rows })

/-! ## `DELETE /api/tasks/:id` (lines 278-296) -/

/-- Handler of `DELETE /api/tasks/:id`. -/
def deleteTask (idOf : String → Option Nat) (user : Claims) (taskId : String)
    (s : Store) : Response × Store :=
  let rows := s.tasks.filter (fun t => !ownedRow idOf (.str taskId) (.num user.id) t)
  let changes := s.tasks.length - rows.length
  if changes = 0 then (⟨404, .error "Task not found"⟩, { s with tasks := rows })
  else (⟨200, .message "Task deleted successfully"⟩, { s with tasks := rows })

/-! ## `GET /api/stats` (lines 299-316) -/

/-- SQL `SUM`: `NULL` when there is no input row. -/
def sqlSum (xs : List Int) : Option Int :=
  match xs with
  | [] => none
  | _ :: _ => some xs.sum

/-- SQL `SUM(CASE WHEN p THEN 1 ELSE 0 END)` over the selected rows. -/
def sumCase (p : Task → Bool) (rows : List Task) : Option Int :=
  sqlSum (rows.map (fun t => if p t then 1 else 0))

/-- Handler of `GET /api/stats`. It only reads the store. -/
def getStats (user : Claims) (s : Store) : Response :=
  let rows := s.tasks.filter (fun t => eqInt t.user_id (.num user.id))
  ⟨200, .stats
    { total_tasks := some (rows.length : Int)
      completed_tasks := sumCase (fun t => t.status == some "completed") rows
      in_progress_tasks := sumCase (fun t => t.status == some "in-progress") rows
      pending_tasks := sumCase (fun t => t.status == some "pending") rows
      high_priority_tasks := sumCase (fun t => t.priority == some "high") rows }⟩

/-! ## Request sequences -/

/-- A create or update request as the handler receives it after the token
check: the instant, the caller, and the request's content. -/
inductive TaskRequest where
  | create (now : Nat) (user : Claims) (b : TaskBody)
  | update (now : Nat) (user : Claims) (taskId : String) (b : TaskBody)
  deriving DecidableEq, Repr

/-- The store after one request. -/
def step (idOf : String → Option Nat) (realText : Int → String) (s : Store) : TaskRequest → Store
  | .create now user b => (postTask realText now user b s).2
  | .update now user taskId b => (putTask idOf realText now user taskId b s).2

/-- The store after a sequence of requests, served in order. -/
def run (idOf : String → Option Nat) (realText : Int → String) (s : Store)
    (reqs : List TaskRequest) : Store :=
  reqs.foldl (step idOf realText) s

/-- The status values of the data model. -/
def statusDomain : List String := ["pending", "in-progress", "completed"]

/-- The priority values of the data model. -/
def priorityDomain : List String := ["low", "medium", "high"]

/-- A row whose status and priority lie in the data model's domains. -/
def inDomain (t : Task) : Bool :=
  (match t.status with
    | some v => statusDomain.contains v
    | none => false)
  && (match t.priority with
    | some v => priorityDomain.contains v
    | none => false)

/-- The primary key of `tasks`: no two rows share an id. -/
def uniqueIds (s : Store) : Prop :=
  s.tasks.Pairwise (fun a b => a.id ≠ b.id)

/-- The key discipline of `tasks`: ids are unique and none exceeds the
`AUTOINCREMENT` counter. -/
def keyed (s : Store) : Prop :=
  uniqueIds s ∧ ∀ t ∈ s.tasks, t.id ≤ s.taskSeq

/-! ## Vocabulary of the properties -/

/-- Whether a body supplies at least one field the update handler takes: a
truthy title, status or priority, or a description that is not `undefined`. -/
def suppliesField (b : TaskBody) : Bool :=
  b.title.truthy || decide (b.description ≠ .undefined) || b.status.truthy || b.priority.truthy

/-- The row an update that matches leaves behind: each supplied column rebound,
the timestamp refreshed. -/
def updatedRow (realText : Int → String) (now : Nat) (b : TaskBody) (r : Task) : Task :=
  { r with
    title := if b.title.truthy then bindText realText b.title else r.title
    description :=
      if b.description ≠ .undefined then bindText realText b.description else r.description
    status := if b.status.truthy then bindText realText b.status else r.status
    priority := if b.priority.truthy then bindText realText b.priority else r.priority
    updated_at := now }

/-- The filter value the list handler binds for a query key: none when the key
is absent or empty. -/
def suppliedFilter (v : Option String) : Option JsVal :=
  if (ofQuery v).truthy then some (ofQuery v) else none

/-- A string value of the given domain. -/
def inList (dom : List String) (v : JsVal) : Bool :=
  match v with
  | .str x => dom.contains x
  | _ => false

/-- A request whose status and priority, where the handler would store them,
are values of the data model: on create the field is absent or such a value,
on update it is falsy (and skipped) or such a value. -/
def respectsDomains : TaskRequest → Bool
  | .create _ _ b =>
    (b.status == .undefined || inList statusDomain b.status)
      && (b.priority == .undefined || inList priorityDomain b.priority)
  | .update _ _ _ b =>
    (!b.status.truthy || inList statusDomain b.status)
      && (!b.priority.truthy || inList priorityDomain b.priority)

/-! ## Statement texts and their placeholders -/

/-- The number of `?` placeholders in a statement text. -/
def placeholders (sql : String) : Nat :=
  sql.data.count '?'

/-- Scans the words of a statement: for each word that starts with `?`, the
word the placeholder stands against, which is the word before `=` in
`col = ?` and the word just before otherwise (`LIMIT ?`). `p2` and `p1` are the
two words last read. -/
def targetsFrom : List (List Char) → List Char → List Char → List String
  | [], _, _ => []
  | w :: ws, p2, p1 =>
    if w.head? = some '?' then
      String.mk (if p1 = ['='] then p2 else p1) :: targetsFrom ws p1 w
    else targetsFrom ws p1 w

/-- For each placeholder of a statement text, in order, the column or keyword
it stands against. -/
def placeholderTargets (sql : String) : List String :=
  targetsFrom (splitSpace sql.data) [] []

/-- The list statement for each choice of filters. -/
def listSqlOf (st pr : Bool) : String :=
  "SELECT * FROM tasks WHERE user_id = ?"
    ++ (if st then " AND status = ?" else "")
    ++ (if pr then " AND priority = ?" else "")
    ++ " ORDER BY created_at DESC LIMIT ? OFFSET ?"

/-- The `SET` list for each choice of supplied fields. -/
def setListOf (t d st pr : Bool) : List String :=
  (if t then ["title = ?"] else [])
    ++ (if d then ["description = ?"] else [])
    ++ (if st then ["status = ?"] else [])
    ++ (if pr then ["priority = ?"] else [])
    ++ ["updated_at = CURRENT_TIMESTAMP"]

/-! ## Instances for the concrete examples -/

/-- A reading of the path segment for the examples: the decimal numerals. -/
def decimalId (v : String) : Option Nat :=
  if v.data ≠ [] ∧ v.data.all Char.isDigit then
    some (v.data.foldl (fun a c => a * 10 + (c.toNat - 48)) 0)
  else none

/-- A rendering of a whole `REAL` for the examples: the numeral followed by
`.0`, as SQLite writes it below 10^15. -/
def demoRealText (n : Int) : String :=
  toString n ++ ".0"

/-- Toy libraries for the examples: the hash of `p` is `$p`, the token of a
user is the user's name, and verification knows the tokens `admin` (valid),
`old` (expired); every other token is malformed. -/
def demoCrypto : Crypto :=
  { hash := fun p => "$" ++ p
    compare := fun p h => h == "$" ++ p
    sign := fun c _ =>
      match c.username with
      | .str name => name
      | _ => "anonymous"
    verify := fun token _ =>
      if token = "admin" then .ok ⟨1, .str "admin"⟩
      else if token = "old" then .error .TokenExpiredError
      else .error .JsonWebTokenError }

/-! # Properties -/

/-! ## Auxiliary facts about the handlers -/

@[simp]
theorem parse_title : SetItem.parse "title = ?" = some .title := by decide

@[simp]
theorem parse_description : SetItem.parse "description = ?" = some .description := by decide

@[simp]
theorem parse_status : SetItem.parse "status = ?" = some .status := by decide

@[simp]
theorem parse_priority : SetItem.parse "priority = ?" = some .priority := by decide

@[simp]
theorem parse_touch : SetItem.parse "updated_at = CURRENT_TIMESTAMP" = some .touch := by decide

theorem buildUpdate_length (user : Claims) (taskId : String) (b : TaskBody) :
    ((buildUpdate user taskId b).1.length = 1) ↔ suppliesField b = false := by
  unfold buildUpdate suppliesField
  by_cases h1 : b.title.truthy <;> by_cases h2 : b.description = .undefined <;>
  by_cases h3 : b.status.truthy <;> by_cases h4 : b.priority.truthy <;>
  simp [h1, h2, h3, h4]

theorem updateRow_buildUpdate (realText : Int → String) (idOf : String → Option Nat) (now : Nat)
    (user : Claims)
    (taskId : String) (b : TaskBody) :
    ∃ sets, parseSets (buildUpdate user taskId b).1 = some sets ∧
      ∀ r, updateRow idOf realText now sets (buildUpdate user taskId b).2 r
        = some (if ownedRow idOf (.str taskId)
            (.num user.id) r then updatedRow realText now b r else r,
            ownedRow idOf (.str taskId) (.num user.id) r) := by
  unfold buildUpdate
  by_cases h1 : b.title.truthy <;> by_cases h2 : b.description = .undefined <;>
  by_cases h3 : b.status.truthy <;> by_cases h4 : b.priority.truthy <;>
  simp [h1, h2, h3, h4, parseSets, updateRow, applySets, updatedRow] <;>
  intro r <;> split <;> simp_all

theorem updateRows_eq (realText : Int → String) (idOf : String → Option Nat) (now : Nat)
    (sets : List SetItem)
    (params : List JsVal) (f : Task → Task) (hit : Task → Bool)
    (h : ∀ r, updateRow idOf realText now sets params r = some (f r, hit r)) (rows : List Task) :
    updateRows idOf realText now sets params rows
      = some (rows.map (fun r => f r), (rows.filter hit).length) := by
  induction rows with
  | nil => rfl
  | cons r rs ih =>
    simp only [updateRows, h, ih, List.map_cons, List.filter_cons]
    cases hit r <;> simp


theorem eqInt_iff (col n : Nat) : eqInt col (.num (n : Int)) = true ↔ col = n := by
  simp only [eqInt, beq_iff_eq, JsVal.num.injEq, Nat.cast_inj]
  exact eq_comm

theorem ownedRow_iff (idOf : String → Option Nat) (taskId : String) (uid : Nat) (r : Task) :
    ownedRow idOf (.str taskId) (.num (uid : Int)) r = true
      ↔ idOf taskId = some r.id ∧ r.user_id = uid := by
  simp [ownedRow, eqId, eqInt_iff]

theorem putTask_not_supplied (realText : Int → String) (idOf : String → Option Nat) (now : Nat)
    (user : Claims)
    (taskId : String) (b : TaskBody) (s : Store) (hs : suppliesField b = false) :
    putTask idOf realText now user taskId b s = (⟨400, .error "No fields to update"⟩, s) := by
  have hl := (buildUpdate_length user taskId b).2 hs
  unfold putTask
  generalize buildUpdate user taskId b = bu at hl ⊢
  obtain ⟨updates, params⟩ := bu
  exact if_pos hl

theorem putTask_supplied (realText : Int → String) (idOf : String → Option Nat) (now : Nat)
    (user : Claims)
    (taskId : String) (b : TaskBody) (s : Store) (hs : suppliesField b = true) :
    putTask idOf realText now user taskId b s =
      (if (s.tasks.filter (ownedRow idOf (.str taskId) (.num user.id))).length = 0 then
          ⟨404, .error "Task not found"⟩
        else ⟨200, .message "Task updated successfully"⟩,
        { s with tasks := s.tasks.map (fun r =>
            if ownedRow idOf (.str taskId)
                (.num user.id) r then updatedRow realText now b r else r) }) := by
  obtain ⟨sets, hp, hr⟩ := updateRow_buildUpdate realText idOf now user taskId b
  have hne : ¬ (buildUpdate user taskId b).1.length = 1 := fun h => by
    have := (buildUpdate_length user taskId b).1 h
    rw [hs] at this
    exact Bool.noConfusion this
  have hrows := updateRows_eq realText idOf now sets (buildUpdate user taskId b).2 _ _ hr s.tasks
  unfold putTask
  generalize buildUpdate user taskId b = bu at hp hne hrows ⊢
  obtain ⟨updates, params⟩ := bu
  simp only at hp hne hrows ⊢
  rw [if_neg hne]
  simp only [dbRunUpdate, hp, hrows]
  split <;> rfl

theorem map_unowned (p : Task → Bool) (f : Task → Task) (rows : List Task)
    (h : ∀ r ∈ rows, p r = false) :
    rows.map (fun r => if p r then f r else r) = rows := by
  induction rows with
  | nil => rfl
  | cons r rs ih =>
    have h1 := h r (List.mem_cons_self _ _)
    simp [h1, ih (fun x hx => h x (List.mem_cons_of_mem _ hx))]


theorem dbAllTasks_buildListQuery (realText : Int → String) (user : Claims) (q : ListQuery)
    (rows : List Task) :
    dbAllTasks realText (buildListQuery user q).1 (buildListQuery user q).2 rows
      = selectTasks realText rows (.num user.id) (suppliedFilter q.status)
          (suppliedFilter q.priority)
          (parseInt (withDefault q.limit 50)) (parseInt (withDefault q.offset 0)) := by
  obtain ⟨st, pr, lim, off⟩ := q
  simp only [buildListQuery, suppliedFilter]
  by_cases h1 : (ofQuery st).truthy = true <;> by_cases h2 : (ofQuery pr).truthy = true <;>
    simp [h1, h2, dbAllTasks]

theorem getTasks_eq (realText : Int → String) (user : Claims) (q : ListQuery) (s : Store) :
    getTasks realText user q s =
      match selectTasks realText s.tasks (.num user.id) (suppliedFilter q.status)
          (suppliedFilter q.priority)
          (parseInt (withDefault q.limit 50)) (parseInt (withDefault q.offset 0)) with
      | none => ⟨500, .error "Database error"⟩
      | some tasks => ⟨200, .tasks tasks tasks.length⟩ := by
  have h := dbAllTasks_buildListQuery realText user q s.tasks
  unfold getTasks
  generalize buildListQuery user q = bq at h ⊢
  obtain ⟨query, params⟩ := bq
  simp only at h ⊢
  rw [h]


theorem mem_page {l o : Int} {rows : List Task} {t : Task} (h : t ∈ page l o rows) : t ∈ rows := by
  unfold page at h
  split at h
  · exact List.mem_of_mem_drop h
  · exact List.mem_of_mem_drop (List.mem_of_mem_take h)

theorem selectTasks_num (realText : Int → String) (rows : List Task) (uid : JsVal)
    (st pr : Option JsVal) (L O : Int) :
    selectTasks realText rows uid st pr (.num L) (.num O)
      = if fitsInt64 L && fitsInt64 O then
          some (page L O ((rows.filter (fun t =>
            eqInt t.user_id uid
              && (match st with
                  | none => true
                  | some v => eqText realText t.status v)
              && (match pr with
                  | none => true
                  | some v => eqText realText t.priority v))).insertionSort newerFirst))
        else none := by
  rfl

theorem selectTasks_owner {realText : Int → String} {rows : List Task} {uid : Nat}
    {st pr : Option JsVal} {l o : JsVal} {out : List Task}
    (h : selectTasks realText rows (.num (uid : Int)) st pr l o = some out) :
    ∀ t ∈ out, t ∈ rows ∧ t.user_id = uid := by
  intro t ht
  cases l with
  | num L =>
    cases o with
    | num O =>
      rw [selectTasks_num] at h
      split at h
      · injection h with h
        subst h
        have h1 := mem_page ht
        have h2 := (List.perm_insertionSort newerFirst _).mem_iff.1 h1
        rw [List.mem_filter] at h2
        refine ⟨h2.1, ?_⟩
        have h3 := h2.2
        simp only [Bool.and_eq_true] at h3
        exact (eqInt_iff _ _).1 h3.1.1
      · exact absurd h (by simp)
    | _ => simp [selectTasks] at h
  | _ => simp [selectTasks] at h

theorem status_filter_eq {realText : Int → String} (v : Option String) (col : Option String) :
    (match suppliedFilter v with
      | none => true
      | some x => eqText realText col x)
    = (match v with
      | some st => st == "" || col == some st
      | none => true) := by
  cases v with
  | none => rfl
  | some st =>
    by_cases h : st = ""
    · subst h; rfl
    · simp [suppliedFilter, ofQuery, JsVal.truthy, h, eqText, bindText]

theorem no_owned_row (idOf : String → Option Nat) (caller : Claims) (taskId : String)
    (s : Store) (t : Task) (huniq : uniqueIds s) (ht : t ∈ s.tasks)
    (hown : t.user_id ≠ caller.id) (hid : idOf taskId = some t.id) :
    ∀ r ∈ s.tasks, ownedRow idOf (.str taskId) (.num caller.id) r = false := by
  intro r hr
  by_contra hne
  have ho : ownedRow idOf (.str taskId) (.num caller.id) r = true := by
    cases h : ownedRow idOf (.str taskId) (.num caller.id) r
    · exact absurd h hne
    · rfl
  obtain ⟨h1, h2⟩ := (ownedRow_iff idOf taskId caller.id r).1 ho
  have hidr : r.id = t.id := by
    rw [hid] at h1
    exact (Option.some.inj h1).symm
  have hrt : r = t := by
    by_contra hrt
    exact (huniq.forall (fun _ _ h => h.symm) hr ht hrt) hidr
  exact hown (hrt ▸ h2)

theorem bindText_inList (realText : Int → String) {dom : List String} {v : JsVal}
    (h : inList dom v = true) :
    ∃ x, bindText realText v = some x ∧ dom.contains x = true := by
  cases v <;> simp [inList] at h
  exact ⟨_, rfl, by simpa using h⟩

theorem postTask_inDomain (realText : Int → String) (now : Nat) (user : Claims) (b : TaskBody)
    (s : Store)
    (hreq : respectsDomains (.create now user b) = true)
    (hs : ∀ t ∈ s.tasks, inDomain t = true) :
    ∀ t ∈ (postTask realText now user b s).2.tasks, inDomain t = true := by
  unfold postTask
  split
  · exact hs
  · intro t ht
    simp only [List.mem_append, List.mem_singleton] at ht
    rcases ht with ht | ht
    · exact hs t ht
    · subst ht
      simp only [respectsDomains, Bool.and_eq_true, Bool.or_eq_true, beq_iff_eq] at hreq
      obtain ⟨h1, h2⟩ := hreq
      have e1 : ∃ x, bindText realText (orDefault b.status (.str "pending")) = some x
          ∧ statusDomain.contains x = true := by
        rcases h1 with h1 | h1
        · rw [h1]; exact ⟨"pending", rfl, by decide⟩
        · have hne : b.status ≠ .undefined := by
            intro h; rw [h] at h1; simp [inList] at h1
          simp only [orDefault, if_neg hne]
          exact bindText_inList realText h1
      have e2 : ∃ x, bindText realText (orDefault b.priority (.str "medium")) = some x
          ∧ priorityDomain.contains x = true := by
        rcases h2 with h2 | h2
        · rw [h2]; exact ⟨"medium", rfl, by decide⟩
        · have hne : b.priority ≠ .undefined := by
            intro h; rw [h] at h2; simp [inList] at h2
          simp only [orDefault, if_neg hne]
          exact bindText_inList realText h2
      obtain ⟨x1, hx1, hd1⟩ := e1
      obtain ⟨x2, hx2, hd2⟩ := e2
      simp only [inDomain, hx1, hx2, hd1, hd2, Bool.and_self]

theorem putTask_inDomain (realText : Int → String) (idOf : String → Option Nat) (now : Nat)
    (user : Claims)
    (taskId : String) (b : TaskBody) (s : Store)
    (hreq : respectsDomains (.update now user taskId b) = true)
    (hs : ∀ t ∈ s.tasks, inDomain t = true) :
    ∀ t ∈ (putTask idOf realText now user taskId b s).2.tasks, inDomain t = true := by
  cases hsup : suppliesField b with
  | false =>
    rw [putTask_not_supplied realText idOf now user taskId b s hsup]
    exact hs
  | true =>
    rw [putTask_supplied realText idOf now user taskId b s hsup]
    intro t ht
    simp only [List.mem_map] at ht
    obtain ⟨r, hr, hrt⟩ := ht
    have hrd := hs r hr
    split at hrt
    · subst hrt
      simp only [respectsDomains, Bool.and_eq_true, Bool.or_eq_true, Bool.not_eq_true'] at hreq
      obtain ⟨h1, h2⟩ := hreq
      simp only [inDomain, Bool.and_eq_true] at hrd ⊢
      constructor
      · cases hst : b.status.truthy with
        | false => simp only [updatedRow, hst]; exact hrd.1
        | true =>
          rcases h1 with h1 | h1
          · rw [h1] at hst; exact absurd hst (by decide)
          · obtain ⟨x, hx, hd⟩ := bindText_inList realText h1
            simp only [updatedRow, hst, if_true, hx, hd]
      · cases hst : b.priority.truthy with
        | false => simp only [updatedRow, hst]; exact hrd.2
        | true =>
          rcases h2 with h2 | h2
          · rw [h2] at hst; exact absurd hst (by decide)
          · obtain ⟨x, hx, hd⟩ := bindText_inList realText h2
            simp only [updatedRow, hst, if_true, hx, hd]
    · subst hrt
      exact hrd

theorem run_inDomain (realText : Int → String) (idOf : String → Option Nat)
    (reqs : List TaskRequest) :
    ∀ s : Store, (∀ r ∈ reqs, respectsDomains r = true) → (∀ t ∈ s.tasks, inDomain t = true) →
      ∀ t ∈ (run idOf realText s reqs).tasks, inDomain t = true := by
  induction reqs with
  | nil => intro s _ hs; exact hs
  | cons r rs ih =>
    intro s hr hs
    have hr1 := hr r (List.mem_cons_self _ _)
    have hrs : ∀ x ∈ rs, respectsDomains x = true := fun x hx => hr x (List.mem_cons_of_mem _ hx)
    have hstep : ∀ t ∈ (step idOf realText s r).tasks, inDomain t = true := by
      cases r with
      | create now user b => exact postTask_inDomain realText now user b s hr1 hs
      | update now user taskId b => exact putTask_inDomain realText idOf now user taskId b s hr1 hs
    exact ih (step idOf realText s r) hrs hstep

theorem keyed_seeded (k : Crypto) (t0 : Nat) : keyed (seeded k t0) := by
  constructor
  · simp [uniqueIds, seeded, sampleTasks]
  · intro t ht
    simp only [seeded, sampleTasks, List.mem_cons, List.mem_singleton, List.not_mem_nil,
      or_false] at ht
    rcases ht with h | h | h | h | h <;> subst h <;> simp [seeded]

theorem keyed_postTask (realText : Int → String) (now : Nat) (user : Claims) (b : TaskBody)
    (s : Store) (h : keyed s) :
    keyed (postTask realText now user b s).2 := by
  unfold postTask
  split
  · exact h
  · obtain ⟨h1, h2⟩ := h
    constructor
    · simp only [uniqueIds] at h1 ⊢
      rw [List.pairwise_append]
      refine ⟨h1, List.pairwise_singleton _ _, ?_⟩
      intro a ha c hc
      simp only [List.mem_singleton] at hc
      subst hc
      have := h2 a ha
      simp only
      omega
    · intro t ht
      simp only [List.mem_append, List.mem_singleton] at ht
      rcases ht with ht | ht
      · have := h2 t ht
        simp only
        omega
      · subst ht
        exact Nat.le_refl _

theorem keyed_putTask (realText : Int → String) (idOf : String → Option Nat) (now : Nat)
    (user : Claims)
    (taskId : String) (b : TaskBody) (s : Store) (h : keyed s) :
    keyed (putTask idOf realText now user taskId b s).2 := by
  cases hsup : suppliesField b with
  | false =>
    rw [putTask_not_supplied realText idOf now user taskId b s hsup]
    exact h
  | true =>
    rw [putTask_supplied realText idOf now user taskId b s hsup]
    obtain ⟨h1, h2⟩ := h
    have hid : ∀ r : Task,
        (if ownedRow idOf (.str taskId)
            (.num user.id) r = true then updatedRow realText now b r else r).id
          = r.id := by
      intro r
      split <;> rfl
    constructor
    · simp only [uniqueIds] at h1 ⊢
      rw [List.pairwise_map]
      exact h1.imp (fun {a c} hac => by rw [hid a, hid c]; exact hac)
    · intro t ht
      simp only [List.mem_map] at ht
      obtain ⟨r, hr, hrt⟩ := ht
      rw [← hrt, hid r]
      exact h2 r hr

theorem keyed_deleteTask (idOf : String → Option Nat) (user : Claims) (taskId : String)
    (s : Store) (h : keyed s) : keyed (deleteTask idOf user taskId s).2 := by
  obtain ⟨h1, h2⟩ := h
  have hk : keyed { s with
      tasks := List.filter (fun t => !ownedRow idOf (.str taskId) (.num user.id) t) s.tasks } := by
    constructor
    · simp only [uniqueIds] at h1 ⊢
      exact h1.sublist (List.filter_sublist _)
    · intro t ht
      exact h2 t (List.mem_of_mem_filter ht)
  unfold deleteTask
  simp only
  split <;> exact hk

theorem readToken_bearer (token : String) (h : ' ' ∉ token.data) :
    readToken (some ("Bearer " ++ token)) = some token := by
  have hs : ∀ cs : List Char, ' ' ∉ cs → splitSpace cs = [cs] := by
    intro cs
    induction cs with
    | nil => intro _; rfl
    | cons c cs ih =>
      intro hc
      simp only [List.mem_cons, not_or] at hc
      have hne : ¬ c = ' ' := fun h => hc.1 h.symm
      simp [splitSpace, hne, ih hc.2]
  have hne : ("Bearer " ++ token) ≠ "" := by
    intro h
    have := congrArg String.length h
    simp only [String.length_append, String.length_empty, Nat.add_eq_zero] at this
    exact absurd this.1 (by decide)
  unfold readToken
  simp only [hne, if_false]
  have : ("Bearer " ++ token).data = 'B' :: 'e' :: 'a' :: 'r' :: 'e' :: 'r' :: ' ' :: token.data :=
      by
    simp [String.data_append]
  rw [this]
  simp [splitSpace, hs token.data h]

/-! ## Worked values -/

/-- Values of `parseInt`: leading white space and a sign are read, the numeral
ends at the first character that is no digit, `0x` reads hexadecimal, no digit
gives `NaN`, and a value past 2^53 is rounded to the nearest JavaScript number. -/
theorem parseInt_examples :
    parseIntStr "42" = .num 42
    ∧ parseIntStr "  -12px" = .num (-12)
    ∧ parseIntStr "0x1f" = .num 31
    ∧ parseIntStr "1e3" = .num 1
    ∧ parseIntStr "" = .nan
    ∧ parseIntStr "9007199254740993" = .num 9007199254740992
    ∧ parseIntStr "9007199254740995" = .num 9007199254740996
    ∧ parseIntStr "9223372036854775000" = .num 9223372036854774784
    ∧ parseIntStr "9223372036854775500" = .num 9223372036854775808
    ∧ parseIntStr "99999999999999999999" = .num 100000000000000000000 := by
  decide

/-- A `limit` that rounds to a number outside the 64-bit range is refused by
storage and answered 500; one just inside is taken; a negative `limit` is no
limit and a negative `offset` counts as none. -/
theorem getTasks_limit_beyond_int64 :
    getTasks demoRealText ⟨1, .str "admin"⟩ ⟨none, none, some "99999999999999999999", none⟩
        (seeded demoCrypto 0)
      = ⟨500, .error "Database error"⟩
    ∧ getTasks demoRealText ⟨1, .str "admin"⟩ ⟨none, none, some "9223372036854775500", none⟩
        (seeded demoCrypto 0)
      = ⟨500, .error "Database error"⟩
    ∧ getTasks demoRealText ⟨1, .str "admin"⟩ ⟨none, none, some "9223372036854775000", none⟩
        (seeded demoCrypto 0)
      = ⟨200, .tasks (sampleTasks 0) 5⟩
    ∧ getTasks demoRealText ⟨1, .str "admin"⟩ ⟨none, none, some "-1", some "-7"⟩
        (seeded demoCrypto 0)
      = ⟨200, .tasks (sampleTasks 0) 5⟩ := by
  decide

/-- What a `TEXT` column holds for a bound value: the numeral for a 32-bit
integer, the text of the `REAL` for any other number, `1` for `true`. -/
theorem bindText_examples :
    bindText demoRealText (.num 7) = some "7"
    ∧ bindText demoRealText (.num (-2147483648)) = some "-2147483648"
    ∧ bindText demoRealText (.num 2147483648) = some "2147483648.0"
    ∧ bindText demoRealText (.num 3000000000) = some "3000000000.0"
    ∧ bindText demoRealText (.bool true) = some "1"
    ∧ bindText demoRealText (.str "high") = some "high"
    ∧ bindText demoRealText .null = none := by
  decide

/-! ## C1: per-owner isolation -/

/-- C1 as stated fails for an update with an empty body: task 3 of the seeded
store belongs to user 1, and an update by user 2 with that id and no field is
answered 400 `No fields to update`, not 404 `Task not found`. -/
theorem empty_update_of_foreign_task_is_400 :
    (∃ t ∈ (seeded demoCrypto 0).tasks, t.user_id ≠ 2 ∧ decimalId "3" = some t.id)
    ∧ (putTask decimalId demoRealText 1 ⟨2, .str "bob"⟩ "3"
        ⟨.undefined, .undefined, .undefined, .undefined⟩
        (seeded demoCrypto 0)).1 = ⟨400, .error "No fields to update"⟩
    ∧ (putTask decimalId demoRealText 1 ⟨2, .str "bob"⟩ "3"
        ⟨.undefined, .undefined, .undefined, .undefined⟩
        (seeded demoCrypto 0)).1 ≠ ⟨404, .error "Task not found"⟩ := by
  decide

/-- C1, amended: in a store with unique task ids, for a task `t` of another
user and a path segment that reads as `t`'s id, the caller's get and delete
are answered 404 `Task not found`, and so is an update that supplies a field;
an update supplying none is answered 400; none of them changes the store, and
no list answer of the caller contains `t`. -/
theorem other_owner_isolated (realText : Int → String) (idOf : String → Option Nat) (now : Nat)
    (caller : Claims)
    (taskId : String) (s : Store) (t : Task) (huniq : uniqueIds s) (ht : t ∈ s.tasks)
    (hown : t.user_id ≠ caller.id) (hid : idOf taskId = some t.id) :
    getTaskById idOf caller taskId s = ⟨404, .error "Task not found"⟩
    ∧ (∀ b, suppliesField b = true →
        putTask idOf realText now caller taskId b s = (⟨404, .error "Task not found"⟩, s))
    ∧ (∀ b, suppliesField b = false →
        putTask idOf realText now caller taskId b s = (⟨400, .error "No fields to update"⟩, s))
    ∧ deleteTask idOf caller taskId s = (⟨404, .error "Task not found"⟩, s)
    ∧ (∀ q rows total, (getTasks realText caller q s).body = .tasks rows total → t ∉ rows) := by
  have hno := no_owned_row idOf caller taskId s t huniq ht hown hid
  refine ⟨?_, ?_, ?_, ?_, ?_⟩
  · have : s.tasks.find? (ownedRow idOf (.str taskId) (.num caller.id)) = none := by
      rw [List.find?_eq_none]
      intro x hx
      simp [hno x hx]
    simp [getTaskById, this]
  · intro b hb
    rw [putTask_supplied realText idOf now caller taskId b s hb]
    have h1 : s.tasks.filter (ownedRow idOf (.str taskId) (.num caller.id)) = [] := by
      rw [List.filter_eq_nil_iff]
      intro x hx
      simp [hno x hx]
    rw [h1, map_unowned _ _ _ hno]
    rfl
  · intro b hb
    exact putTask_not_supplied realText idOf now caller taskId b s hb
  · have h1 : s.tasks.filter (fun t => !ownedRow idOf (.str taskId)
        (.num caller.id) t) = s.tasks := by
      rw [List.filter_eq_self]
      intro x hx
      simp [hno x hx]
    simp [deleteTask, h1]
  · intro q rows total hbody hmem
    rw [getTasks_eq] at hbody
    split at hbody
    · simp at hbody
    · rename_i out hsel
      simp only [Body.tasks.injEq] at hbody
      have := selectTasks_owner hsel t (hbody.1 ▸ hmem)
      exact hown this.2

/-- The isolation theorem at the seeded store: user 2 asks for task 3 of user 1. -/
theorem other_owner_isolated_witness :
    uniqueIds (seeded demoCrypto 0)
    ∧ (⟨3, some "Design API Endpoints", some "Define REST API structure", some "pending",
          some "medium", 1, 0, 0⟩ : Task) ∈ (seeded demoCrypto 0).tasks
    ∧ (1 : Nat) ≠ 2
    ∧ decimalId "3" = some 3
    ∧ getTaskById decimalId ⟨2, .str "bob"⟩ "3" (seeded demoCrypto 0)
        = ⟨404, .error "Task not found"⟩
    ∧ deleteTask decimalId ⟨2, .str "bob"⟩ "3" (seeded demoCrypto 0)
        = (⟨404, .error "Task not found"⟩, seeded demoCrypto 0) :=
  have h1 : uniqueIds (seeded demoCrypto 0) := by unfold uniqueIds; decide
  have h2 : (⟨3, some "Design API Endpoints", some "Define REST API structure", some "pending",
      some "medium", 1, 0, 0⟩ : Task) ∈ (seeded demoCrypto 0).tasks := by decide
  have h3 : (1 : Nat) ≠ 2 := by decide
  have h4 : decimalId "3" = some 3 := by decide
  ⟨h1, h2, h3, h4,
    (other_owner_isolated demoRealText decimalId 1 ⟨2, .str "bob"⟩ "3"
        (seeded demoCrypto 0) _ h1 h2 h3 h4).1,
    (other_owner_isolated demoRealText decimalId 1 ⟨2, .str "bob"⟩ "3"
        (seeded demoCrypto 0) _ h1 h2 h3 h4).2.2.2.1⟩

/-! ## C2: update without fields -/

/-- C2: a `PUT /api/tasks/:id` whose body holds none of title, description,
status, priority is answered 400 `No fields to update` and leaves the store as
it was, for every store, caller and task id (so whether or not the id exists or
belongs to the caller). -/
theorem putTask_no_fields_rejected (realText : Int → String) (idOf : String → Option Nat)
    (now : Nat) (user : Claims)
    (taskId : String) (s : Store) :
    putTask idOf realText now user taskId ⟨.undefined, .undefined, .undefined, .undefined⟩ s
      = (⟨400, .error "No fields to update"⟩, s) := by
  rfl

/-! ## C3: partial update -/

/-- C3: a successful update (answer 200) leaves users and both counters alone
and maps the task table row by row: every row keeps id, owner and creation
time; a column the body did not supply keeps its value; a row that is not the
caller's row with the requested id is unchanged altogether; a row that is gets
the current timestamp in `updated_at` and, in each supplied column, what SQLite
stores for the supplied value: the string for a string, `NULL` for `null`, the
numeral for a 32-bit integer, the text of the `REAL` for any other number, `1`
or `0` for a boolean. -/
theorem putTask_update_frame (realText : Int → String) (idOf : String → Option Nat)
    (now : Nat) (user : Claims) (taskId : String) (b : TaskBody) (s : Store)
    (hok : (putTask idOf realText now user taskId b s).1.status = 200) :
    (putTask idOf realText now user taskId b s).2.users = s.users
    ∧ (putTask idOf realText now user taskId b s).2.userSeq = s.userSeq
    ∧ (putTask idOf realText now user taskId b s).2.taskSeq = s.taskSeq
    ∧ List.Forall₂ (fun r r' =>
        r'.id = r.id ∧ r'.user_id = r.user_id ∧ r'.created_at = r.created_at
        ∧ (b.title.truthy = false → r'.title = r.title)
        ∧ (b.description = .undefined → r'.description = r.description)
        ∧ (b.status.truthy = false → r'.status = r.status)
        ∧ (b.priority.truthy = false → r'.priority = r.priority)
        ∧ (¬ (idOf taskId = some r.id ∧ r.user_id = user.id) → r' = r)
        ∧ ((idOf taskId = some r.id ∧ r.user_id = user.id) →
            r'.updated_at = now
            ∧ (b.title.truthy = true → r'.title = bindText realText b.title)
            ∧ (b.description ≠ .undefined → r'.description = bindText realText b.description)
            ∧ (b.status.truthy = true → r'.status = bindText realText b.status)
            ∧ (b.priority.truthy = true → r'.priority = bindText realText b.priority)))
      s.tasks (putTask idOf realText now user taskId b s).2.tasks
    ∧ (∀ v : String, bindText realText (.str v) = some v)
    ∧ (∀ n : Int, bindText realText (.num n)
        = some (if -2147483648 ≤ n ∧ n ≤ 2147483647 then toString n else realText n))
    ∧ (∀ c : Bool, bindText realText (.bool c) = some (if c then "1" else "0"))
    ∧ bindText realText .null = none := by
  have hnum : ∀ n : Int, bindText realText (.num n)
      = some (if -2147483648 ≤ n ∧ n ≤ 2147483647 then toString n else realText n) := by
    intro n
    by_cases h1 : -2147483648 ≤ n <;> by_cases h2 : n ≤ 2147483647 <;>
      simp [bindText, isInt32, h1, h2]
  cases hs : suppliesField b with
  | false =>
    rw [putTask_not_supplied realText idOf now user taskId b s hs] at hok
    simp at hok
  | true =>
    rw [putTask_supplied realText idOf now user taskId b s hs] at hok ⊢
    refine ⟨rfl, rfl, rfl, ?_, fun _ => rfl, hnum, fun _ => rfl, rfl⟩
    show List.Forall₂ _ s.tasks (s.tasks.map _)
    rw [List.forall₂_map_right_iff, List.forall₂_same]
    intro r _
    by_cases ho : ownedRow idOf (.str taskId) (.num user.id) r = true
    · have ho' := (ownedRow_iff idOf taskId user.id r).1 ho
      rw [if_pos ho]
      refine ⟨rfl, rfl, rfl, ?_, ?_, ?_, ?_, ?_, ?_⟩
      · intro h; simp [updatedRow, h]
      · intro h; simp [updatedRow, h]
      · intro h; simp [updatedRow, h]
      · intro h; simp [updatedRow, h]
      · intro h; exact absurd ho' h
      · intro _
        refine ⟨rfl, ?_, ?_, ?_, ?_⟩ <;> intro h <;> simp [updatedRow, h]
    · have ho' : ¬ (idOf taskId = some r.id ∧ r.user_id = user.id) :=
        fun h => ho ((ownedRow_iff idOf taskId user.id r).2 h)
      rw [if_neg ho]
      simp [ho']

/-- The frame theorem at the seeded store: user 1 sets only the status of task
3; every row keeps title, description, priority, id, owner and creation time,
and the table afterwards is the seeded one with `completed` and the new
timestamp on task 3. An update of task 5 with a large number, `null` and a
small number stores their texts and `NULL`. -/
theorem putTask_update_frame_witness :
    (putTask decimalId demoRealText 9 ⟨1, .str "admin"⟩ "3"
        ⟨.undefined, .undefined, .str "completed", .undefined⟩
        (seeded demoCrypto 0)).1.status = 200
    ∧ List.Forall₂ (fun r r' =>
        r'.title = r.title ∧ r'.description = r.description ∧ r'.priority = r.priority
          ∧ r'.id = r.id ∧ r'.user_id = r.user_id ∧ r'.created_at = r.created_at)
      (seeded demoCrypto 0).tasks
      (putTask decimalId demoRealText 9 ⟨1, .str "admin"⟩ "3"
        ⟨.undefined, .undefined, .str "completed", .undefined⟩
        (seeded demoCrypto 0)).2.tasks
    ∧ (putTask decimalId demoRealText 9 ⟨1, .str "admin"⟩ "3"
        ⟨.undefined, .undefined, .str "completed", .undefined⟩
        (seeded demoCrypto 0)).2.tasks
      = [ ⟨1, some "Setup Development Environment",
            some "Configure Node.js, React, and database", some "completed", some "high",
            1, 0, 0⟩,
          ⟨2, some "Implement Authentication", some "Create login and registration system",
            some "in-progress", some "high", 1, 0, 0⟩,
          ⟨3, some "Design API Endpoints", some "Define REST API structure",
            some "completed", some "medium", 1, 0, 9⟩,
          ⟨4, some "Create Frontend Components", some "Build React components for UI",
            some "pending", some "medium", 1, 0, 0⟩,
          ⟨5, some "Setup Database", some "Configure SQLite database with tables",
            some "completed", some "high", 1, 0, 0⟩ ]
    ∧ ((putTask decimalId demoRealText 9 ⟨1, .str "admin"⟩ "5"
        ⟨.num 3000000000, .null, .undefined, .num 7⟩ (seeded demoCrypto 0)).2.tasks).drop 4
      = [⟨5, some "3000000000.0", none, some "completed", some "7", 1, 0, 9⟩] :=
  have h : (putTask decimalId demoRealText 9 ⟨1, .str "admin"⟩ "3"
      ⟨.undefined, .undefined, .str "completed", .undefined⟩
      (seeded demoCrypto 0)).1.status = 200 := by
    decide
  ⟨h, (putTask_update_frame demoRealText decimalId 9 ⟨1, .str "admin"⟩ "3"
      ⟨.undefined, .undefined, .str "completed", .undefined⟩
      (seeded demoCrypto 0) h).2.2.2.1.imp
    (fun _ _ hr => ⟨hr.2.2.2.1 rfl, hr.2.2.2.2.1 rfl, hr.2.2.2.2.2.2.1 rfl, hr.1, hr.2.1,
      hr.2.2.1⟩),
    by decide, by decide⟩

/-! ## C4: statistics of a caller without tasks -/

/-- C4: the statistics of a caller who owns no task. User 2 owns none of the
seeded rows; the answer is 200 with `total_tasks` 0 and the four `SUM` columns
`NULL`, not 0. -/
theorem getStats_no_tasks_null_sums :
    getStats ⟨2, .str "bob"⟩ (seeded demoCrypto 0)
      = ⟨200, .stats ⟨some 0, none, none, none, none⟩⟩ := by
  decide

/-! ## C5: filtered, ordered, paged list -/

/-- C5 as stated fails for an empty filter: user 1 lists with `status=` (the
empty string) on the seeded store and gets all five sample tasks, none of which
has the empty status. The handler applies a filter only when it is truthy. -/
theorem empty_filter_is_not_applied :
    getTasks demoRealText ⟨1, .str "admin"⟩ ⟨some "", none, none, none⟩ (seeded demoCrypto 0)
      = ⟨200, .tasks (sampleTasks 0) 5⟩
    ∧ ∀ t ∈ sampleTasks 0, t.status ≠ some "" := by
  decide

/-- C5, amended: when `limit` and `offset` read as whole numbers `L` and `O`
that storage takes (absent keys read as 50 and 0), the list answer is 200 with
a page of a sequence that holds exactly the caller's rows passing the supplied
filters (status and priority compared for equality; a filter that is absent or
the empty string is not applied) and that is ordered by `created_at`, newest
first. The page drops the first `O` rows (none for a negative `O`) and keeps
the next `L` (all of them for a negative `L`); `total` is its length. -/
theorem getTasks_filtered_newest_first (realText : Int → String) (user : Claims)
    (q : ListQuery) (s : Store) (L O : Int)
    (hl : parseInt (withDefault q.limit 50) = .num L)
    (ho : parseInt (withDefault q.offset 0) = .num O)
    (hL : -9223372036854775808 < L ∧ L < 9223372036854775807)
    (hO : -9223372036854775808 < O ∧ O < 9223372036854775807) :
    ∃ sorted : List Task,
      sorted.Perm (s.tasks.filter (fun t =>
        decide (t.user_id = user.id)
          && (match q.status with
              | some st => st == "" || t.status == some st
              | none => true)
          && (match q.priority with
              | some pr => pr == "" || t.priority == some pr
              | none => true)))
      ∧ sorted.Pairwise (fun a b => b.created_at ≤ a.created_at)
      ∧ getTasks realText user q s
          = ⟨200, .tasks
              (if L < 0 then sorted.drop O.toNat else (sorted.drop O.toNat).take L.toNat)
              (if L < 0 then sorted.drop O.toNat
                else (sorted.drop O.toNat).take L.toNat).length⟩ := by
  have hfilter : (fun t : Task =>
        eqInt t.user_id (.num user.id)
          && (match suppliedFilter q.status with
              | none => true
              | some v => eqText realText t.status v)
          && (match suppliedFilter q.priority with
              | none => true
              | some v => eqText realText t.priority v))
      = (fun t : Task =>
        decide (t.user_id = user.id)
          && (match q.status with
              | some st => st == "" || t.status == some st
              | none => true)
          && (match q.priority with
              | some pr => pr == "" || t.priority == some pr
              | none => true)) := by
    funext t
    rw [status_filter_eq, status_filter_eq]
    congr 2
    rw [Bool.eq_iff_iff, eqInt_iff]
    simp
  have hfit : (fitsInt64 L && fitsInt64 O) = true := by
    simp [fitsInt64, hL.1, hL.2, hO.1, hO.2]
  refine ⟨(s.tasks.filter (fun t =>
        decide (t.user_id = user.id)
          && (match q.status with
              | some st => st == "" || t.status == some st
              | none => true)
          && (match q.priority with
              | some pr => pr == "" || t.priority == some pr
              | none => true))).insertionSort newerFirst, ?_, ?_, ?_⟩
  · exact List.perm_insertionSort _ _
  · exact List.sorted_insertionSort newerFirst _
  · rw [getTasks_eq, hl, ho, selectTasks_num, hfilter, if_pos hfit]
    rfl

/-- The list theorem on the seeded store after a sixth task, created later:
user 1 asks for completed tasks of high priority with `limit=2` and
`offset=1`. Of the three such tasks, newest first (6, 1, 5), the answer holds
tasks 1 and 5. -/
theorem getTasks_filtered_newest_first_witness :
    parseInt (withDefault (some "2") 50) = .num 2
    ∧ parseInt (withDefault (some "1") 0) = .num 1
    ∧ (∃ sorted : List Task,
        sorted.Perm ((postTask demoRealText 5 ⟨1, .str "admin"⟩
            ⟨.str "Write spec", .undefined, .str "completed", .str "high"⟩
            (seeded demoCrypto 0)).2.tasks.filter (fun t =>
          decide (t.user_id = 1)
            && (match (some "completed" : Option String) with
                | some st => st == "" || t.status == some st
                | none => true)
            && (match (some "high" : Option String) with
                | some pr => pr == "" || t.priority == some pr
                | none => true)))
        ∧ sorted.Pairwise (fun a b => b.created_at ≤ a.created_at)
        ∧ getTasks demoRealText ⟨1, .str "admin"⟩
            ⟨some "completed", some "high", some "2", some "1"⟩
            (postTask demoRealText 5 ⟨1, .str "admin"⟩
              ⟨.str "Write spec", .undefined, .str "completed", .str "high"⟩
              (seeded demoCrypto 0)).2
            = ⟨200, .tasks
                (if (2 : Int) < 0 then sorted.drop (1 : Int).toNat
                  else (sorted.drop (1 : Int).toNat).take (2 : Int).toNat)
                (if (2 : Int) < 0 then sorted.drop (1 : Int).toNat
                  else (sorted.drop (1 : Int).toNat).take (2 : Int).toNat).length⟩)
    ∧ getTasks demoRealText ⟨1, .str "admin"⟩ ⟨some "completed", some "high", some "2", some "1"⟩
        (postTask demoRealText 5 ⟨1, .str "admin"⟩
          ⟨.str "Write spec", .undefined, .str "completed", .str "high"⟩
          (seeded demoCrypto 0)).2
        = ⟨200, .tasks
            [⟨1, some "Setup Development Environment",
                some "Configure Node.js, React, and database", some "completed", some "high",
                1, 0, 0⟩,
              ⟨5, some "Setup Database", some "Configure SQLite database with tables",
                some "completed", some "high", 1, 0, 0⟩] 2⟩ :=
  have h1 : parseInt (withDefault (some "2") 50) = .num 2 := by decide
  have h2 : parseInt (withDefault (some "1") 0) = .num 1 := by decide
  ⟨h1, h2,
    getTasks_filtered_newest_first demoRealText ⟨1, .str "admin"⟩
      ⟨some "completed", some "high", some "2", some "1"⟩
      (postTask demoRealText 5 ⟨1, .str "admin"⟩
        ⟨.str "Write spec", .undefined, .str "completed", .str "high"⟩
        (seeded demoCrypto 0)).2 2 1 h1 h2 (by decide) (by decide),
    by decide⟩

/-! ## C6: limit and offset -/

/-- C6: what the list handler binds for `LIMIT` and `OFFSET`. With both keys
absent the parameters are 50 and 0; with `limit=abc` and an empty `offset` both
are `NaN`, bound as they are, and the statement fails in storage (answer 500). -/
theorem getTasks_limit_not_a_number :
    (buildListQuery ⟨1, .str "admin"⟩ ⟨none, none, none, none⟩).2 = [.num 1, .num 50, .num 0]
    ∧ (buildListQuery ⟨1, .str "admin"⟩ ⟨none, none, some "abc", some ""⟩).2 = [.num 1, .nan, .nan]
    ∧ getTasks demoRealText ⟨1, .str "admin"⟩ ⟨none, none, some "abc", some ""⟩
        (seeded demoCrypto 0)
        = ⟨500, .error "Database error"⟩ := by
  decide

/-! ## C7: login -/

theorem findUser_none {realText : Int → String} {users : List User} {v : JsVal} {ident : String}
    (hid : bindText realText v = some ident)
    (h : ∀ x ∈ users, x.username ≠ ident ∧ x.email ≠ ident) :
    findUser realText users v v = none := by
  have h1 : users.find? (fun u => eqText realText (some u.username) v) = none := by
    rw [List.find?_eq_none]
    intro x hx
    simp [eqText, hid, (h x hx).1]
  have h2 : users.find? (fun u => eqText realText (some u.email) v) = none := by
    rw [List.find?_eq_none]
    intro x hx
    simp [eqText, hid, (h x hx).2]
  simp [findUser, h1, h2]

theorem findUser_some {realText : Int → String} {users : List User} {v : JsVal} {ident : String}
    {user : User} (hid : bindText realText v = some ident)
    (h : findUser realText users v v = some user) :
    user ∈ users ∧ (user.username = ident ∨ user.email = ident)
      ∧ ((∃ x ∈ users, x.username = ident) → user.username = ident) := by
  unfold findUser at h
  cases h1 : users.find? (fun u => eqText realText (some u.username) v) with
  | some u =>
    rw [h1] at h
    injection h with h
    subst h
    have hm := List.find?_some h1
    simp [eqText, hid] at hm
    exact ⟨List.mem_of_find?_eq_some h1, Or.inl hm, fun _ => hm⟩
  | none =>
    rw [h1] at h
    have hm := List.find?_some h
    simp [eqText, hid] at hm
    refine ⟨List.mem_of_find?_eq_some h, Or.inr hm, ?_⟩
    rintro ⟨x, hx, hxu⟩
    rw [List.find?_eq_none] at h1
    have := h1 x hx
    simp [eqText, hid, hxu] at this

theorem findUser_isSome {realText : Int → String} {users : List User} {v : JsVal} {ident : String}
    (hid : bindText realText v = some ident)
    (h : ∃ x ∈ users, x.username = ident ∨ x.email = ident) :
    ∃ user, findUser realText users v v = some user := by
  cases hf : findUser realText users v v with
  | some user => exact ⟨user, rfl⟩
  | none =>
    obtain ⟨x, hx, hm⟩ := h
    unfold findUser at hf
    cases h1 : users.find? (fun u => eqText realText (some u.username) v) with
    | some u => rw [h1] at hf; exact absurd hf (by simp)
    | none =>
      rw [h1] at hf
      rw [List.find?_eq_none] at h1 hf
      have a1 := h1 x hx
      have a2 := hf x hx
      simp [eqText, hid] at a1 a2
      rcases hm with hm | hm
      · exact absurd hm a1
      · exact absurd hm a2

theorem bindText_of_truthy (realText : Int → String) {v : JsVal} (h : v.truthy = true) :
    ∃ ident, bindText realText v = some ident ∧ ∀ name, v = .str name → ident = name := by
  cases v with
  | undefined => simp [JsVal.truthy] at h
  | null => simp [JsVal.truthy] at h
  | nan => simp [JsVal.truthy] at h
  | bool b => exact ⟨_, rfl, fun _ hn => by simp at hn⟩
  | num n => exact ⟨_, rfl, fun _ hn => by simp at hn⟩
  | str x =>
    refine ⟨x, rfl, ?_⟩
    intro name hn
    injection hn

/-- C7: login with a truthy identifier and a truthy password. The identifier
is compared as a text `ident`, which is the identifier itself when it is a
string. If no user row has `ident` as username or email, the answer is 401
`Invalid credentials`. If the lookup yields a row, that row has `ident` as
username or email, and as username whenever some row has; then a password
whose comparison with the row's hash fails gets the same 401, and one whose
comparison succeeds gets 200 with the token signed over the row's id and
username and with the row's id, username and email. A password that is not a
string cannot be compared and no response is sent. The lookup yields a row
whenever some row matches. -/
theorem login_outcomes (k : Crypto) (realText : Int → String) (now : Nat)
    (username password : JsVal) (s : Store)
    (hu : username.truthy = true) (hp : password.truthy = true) :
    ∃ ident : String,
      bindText realText username = some ident
      ∧ (∀ name, username = .str name → ident = name)
      ∧ ((∀ x ∈ s.users, x.username ≠ ident ∧ x.email ≠ ident) →
          login k realText now username password s
            = some ⟨401, .error "Invalid credentials"⟩)
      ∧ (∀ user, findUser realText s.users username username = some user →
          (user ∈ s.users ∧ (user.username = ident ∨ user.email = ident)
            ∧ ((∃ x ∈ s.users, x.username = ident) → user.username = ident))
          ∧ (∀ pw, password = .str pw → k.compare pw user.password = false →
              login k realText now username password s
                = some ⟨401, .error "Invalid credentials"⟩)
          ∧ (∀ pw, password = .str pw → k.compare pw user.password = true →
              login k realText now username password s
                = some ⟨200, .auth "Login successful"
                    (k.sign ⟨user.id, .str user.username⟩ now)
                    ⟨user.id, .str user.username, .str user.email⟩⟩)
          ∧ ((∀ pw, password ≠ .str pw) → login k realText now username password s = none))
      ∧ ((∃ x ∈ s.users, x.username = ident ∨ x.email = ident) →
          ∃ user, findUser realText s.users username username = some user) := by
  obtain ⟨ident, hid, hname⟩ := bindText_of_truthy realText hu
  refine ⟨ident, hid, hname, ?_, ?_, ?_⟩
  · intro h
    simp [login, hu, hp, findUser_none hid h]
  · intro user hf
    refine ⟨findUser_some hid hf, ?_, ?_, ?_⟩
    · intro pw hpw hc
      subst hpw
      simp [login, hu, hp, hf, hc]
    · intro pw hpw hc
      subst hpw
      simp [login, hu, hp, hf, hc]
    · intro hns
      cases password <;> first
        | exact absurd rfl (hns _)
        | simp [login, hu, hp, hf]
  · exact findUser_isSome hid

/-- The login theorem on a store where the identifier `admin@example.com` is
the email of user 1 and the username of user 2: the lookup yields user 2, so
user 2's password logs in as user 2 and user 1's password is refused. -/
theorem login_outcomes_witness :
    (JsVal.str "admin@example.com").truthy = true
    ∧ (JsVal.str "pw3").truthy = true ∧ (JsVal.str "password123").truthy = true
    ∧ login demoCrypto demoRealText 9 (.str "admin@example.com") (.str "pw3")
        (register demoCrypto demoRealText 4 (.str "admin@example.com") (.str "x@example.com")
          (.str "pw3") (seeded demoCrypto 0)).2
        = some ⟨200, .auth "Login successful" "admin@example.com"
            ⟨2, .str "admin@example.com", .str "x@example.com"⟩⟩
    ∧ login demoCrypto demoRealText 9 (.str "admin@example.com") (.str "password123")
        (register demoCrypto demoRealText 4 (.str "admin@example.com") (.str "x@example.com")
          (.str "pw3") (seeded demoCrypto 0)).2
        = some ⟨401, .error "Invalid credentials"⟩ :=
  have h1 : (JsVal.str "admin@example.com").truthy = true := by decide
  have h2 : (JsVal.str "pw3").truthy = true := by decide
  have h3 : (JsVal.str "password123").truthy = true := by decide
  ⟨h1, h2, h3,
    (by
      obtain ⟨_, _, _, _, hrow, _⟩ :=
        login_outcomes demoCrypto demoRealText 9 (.str "admin@example.com") (.str "pw3")
          (register demoCrypto demoRealText 4 (.str "admin@example.com") (.str "x@example.com")
            (.str "pw3") (seeded demoCrypto 0)).2 h1 h2
      exact (hrow ⟨2, "admin@example.com", "x@example.com", "$pw3", 4⟩ (by decide)).2.2.1
        "pw3" rfl (by decide)),
    (by
      obtain ⟨_, _, _, _, hrow, _⟩ :=
        login_outcomes demoCrypto demoRealText 9 (.str "admin@example.com")
          (.str "password123")
          (register demoCrypto demoRealText 4 (.str "admin@example.com") (.str "x@example.com")
            (.str "pw3") (seeded demoCrypto 0)).2 h1 h3
      exact (hrow ⟨2, "admin@example.com", "x@example.com", "$pw3", 4⟩ (by decide)).2.1
        "password123" rfl (by decide))⟩

/-! ## C8: token gate -/

/-- C8: the token gate. With no token readable from the header the answer is
401 `Access token required`; with a token that fails verification, whatever the
failure (expired, malformed), the answer is 403 `Invalid token`; in both cases
the result does not depend on the route handler and the store is returned as
it was. With a token that verifies, the result is the handler's, run with the
verified claims. -/
theorem authenticateToken_gate (k : Crypto) (now : Nat) (authHeader : Option String)
    (next : Claims → Store → Response × Store) (s : Store) :
    ((readToken authHeader = none ∨ readToken authHeader = some "") →
      authenticateToken k now authHeader next s = (⟨401, .error "Access token required"⟩, s))
    ∧ (∀ token e, readToken authHeader = some token → token ≠ "" →
        k.verify token now = .error e →
        authenticateToken k now authHeader next s = (⟨403, .error "Invalid token"⟩, s))
    ∧ (∀ token user, readToken authHeader = some token → token ≠ "" →
        k.verify token now = .ok user →
        authenticateToken k now authHeader next s = next user s) := by
  refine ⟨?_, ?_, ?_⟩
  · rintro (h | h) <;> simp [authenticateToken, h]
  · intro token e h hne hv
    simp [authenticateToken, h, hne, hv]
  · intro token user h hne hv
    simp [authenticateToken, h, hne, hv]

/-- The gate theorem on the statistics route of the seeded store: no header,
an expired token, a malformed token, a valid token. -/
theorem authenticateToken_gate_witness :
    authenticateToken demoCrypto 4 none (fun user s => (getStats user s, s)) (seeded demoCrypto 0)
        = (⟨401, .error "Access token required"⟩, seeded demoCrypto 0)
    ∧ authenticateToken demoCrypto 4 (some "Bearer old") (fun user s => (getStats user s, s))
        (seeded demoCrypto 0) = (⟨403, .error "Invalid token"⟩, seeded demoCrypto 0)
    ∧ authenticateToken demoCrypto 4 (some "Bearer x.y.z") (fun user s => (getStats user s, s))
        (seeded demoCrypto 0) = (⟨403, .error "Invalid token"⟩, seeded demoCrypto 0)
    ∧ authenticateToken demoCrypto 4 (some "Bearer admin") (fun user s => (getStats user s, s))
        (seeded demoCrypto 0) = (getStats ⟨1, .str "admin"⟩
            (seeded demoCrypto 0), seeded demoCrypto 0) :=
  ⟨(authenticateToken_gate demoCrypto 4 none _ (seeded demoCrypto 0)).1 (Or.inl (by decide)),
    (authenticateToken_gate demoCrypto 4 (some "Bearer old") _ (seeded demoCrypto 0)).2.1
      "old" .TokenExpiredError (by decide) (by decide) rfl,
    (authenticateToken_gate demoCrypto 4 (some "Bearer x.y.z") _ (seeded demoCrypto 0)).2.1
      "x.y.z" .JsonWebTokenError (by decide) (by decide) rfl,
    (authenticateToken_gate demoCrypto 4 (some "Bearer admin") _ (seeded demoCrypto 0)).2.2
      "admin" ⟨1, .str "admin"⟩ (by decide) (by decide) rfl⟩

/-! ## C9: token claims -/

/-- C9 as stated fails for a username that is not a string: registering the
username `true` on the seeded store is answered 201; the created row holds the
text `1` as username, while the token is signed over the value `true` and the
summary carries `true`. -/
theorem token_username_is_not_row_username :
    (register demoCrypto demoRealText 4 (.bool true) (.str "t@example.com") (.str "pw")
        (seeded demoCrypto 0)).1
      = ⟨201, .auth "User created successfully" (demoCrypto.sign ⟨2, .bool true⟩ 4)
          ⟨2, .bool true, .str "t@example.com"⟩⟩
    ∧ (register demoCrypto demoRealText 4 (.bool true) (.str "t@example.com") (.str "pw")
        (seeded demoCrypto 0)).2.users
      = (seeded demoCrypto 0).users ++ [⟨2, "1", "t@example.com", "$pw", 4⟩]
    ∧ JsVal.bool true ≠ JsVal.str "1" := by
  decide

/-- C9, amended: after a registration answered 201 the users table has one new
row, with the next id and with the username and email SQLite stores for the
request's values; the token is signed over exactly that id and the request's
username, and the summary carries that id and the request's username and
email; when the request's username is a string, it is the row's username, so
token and summary agree with the row. A login answered 200 carries the token
signed over the id and username of a stored row that matches the identifier,
next to that row's id, username and email. -/
theorem token_claims_are_user_row (k : Crypto) (realText : Int → String) (now : Nat)
    (s : Store) :
    (∀ username email password,
      (register k realText now username email password s).1.status = 201 →
      ∃ row, (register k realText now username email password s).2.users = s.users ++ [row]
        ∧ row.id = s.userSeq + 1
        ∧ bindText realText username = some row.username
        ∧ bindText realText email = some row.email
        ∧ (register k realText now username email password s).1.body
            = .auth "User created successfully" (k.sign ⟨row.id, username⟩ now)
                ⟨row.id, username, email⟩
        ∧ (∀ name, username = .str name →
            row.username = name
            ∧ (register k realText now username email password s).1.body
                = .auth "User created successfully" (k.sign ⟨row.id, .str row.username⟩ now)
                    ⟨row.id, .str row.username, email⟩))
    ∧ (∀ username password r, login k realText now username password s = some r →
      r.status = 200 →
      ∃ row ∈ s.users,
        (bindText realText username = some row.username
          ∨ bindText realText username = some row.email)
        ∧ r.body = .auth "Login successful" (k.sign ⟨row.id, .str row.username⟩ now)
            ⟨row.id, .str row.username, .str row.email⟩) := by
  constructor
  · intro username email password h
    by_cases hm : (!username.truthy || !email.truthy || !password.truthy) = true
    · simp [register, hm] at h
    · cases password with
      | str pw =>
        cases hbu : bindText realText username with
        | none => simp [register, hm, hbu] at h
        | some u =>
          cases hbe : bindText realText email with
          | none => simp [register, hm, hbu, hbe] at h
          | some e =>
            by_cases hv : uniqueViolation s.users u e = true
            · simp [register, hm, hbu, hbe, hv] at h
            · have hreg : register k realText now username email (.str pw) s =
                  (⟨201, .auth "User created successfully" (k.sign ⟨s.userSeq + 1, username⟩ now)
                      ⟨s.userSeq + 1, username, email⟩⟩,
                    { s with
                      users := s.users ++ [⟨s.userSeq + 1, u, e, k.hash pw, now⟩]
                      userSeq := s.userSeq + 1 }) := by
                unfold register
                rw [if_neg hm]
                simp only [hbu, hbe]
                rw [if_neg hv]
              rw [hreg]
              refine ⟨⟨s.userSeq + 1, u, e, k.hash pw, now⟩, rfl, rfl, rfl, rfl, rfl, ?_⟩
              intro name hname
              subst hname
              have hu : u = name := by
                simp only [bindText, Option.some.injEq] at hbu
                exact hbu.symm
              subst hu
              exact ⟨rfl, rfl⟩
      | undefined => simp [register, hm] at h
      | null => simp [register, hm] at h
      | bool b => simp [register, hm] at h
      | num n => simp [register, hm] at h
      | nan => simp [register, hm] at h
  · intro username password r hr h
    by_cases hm : (!username.truthy || !password.truthy) = true
    · have hlog : login k realText now username password s =
          some ⟨400, .error "Username and password are required"⟩ := by
        simp only [login, hm, if_true]
      rw [hlog] at hr
      injection hr with hr
      subst hr
      simp at h
    · cases hf : findUser realText s.users username username with
      | none =>
        have hlog : login k realText now username password s =
            some ⟨401, .error "Invalid credentials"⟩ := by
          simp [login, hm, hf]
        rw [hlog] at hr
        injection hr with hr
        subst hr
        simp at h
      | some user =>
        have hut : username.truthy = true := by
          simp only [Bool.or_eq_true, Bool.not_eq_true', not_or, Bool.not_eq_false] at hm
          exact hm.1
        have hident : ∃ ident, bindText realText username = some ident := by
          cases username <;> simp [JsVal.truthy] at hut <;> simp [bindText]
        obtain ⟨ident, hid⟩ := hident
        have hrow := findUser_some hid hf
        cases password with
        | str pw =>
          by_cases hc : k.compare pw user.password = true
          · have hlog : login k realText now username (.str pw) s =
                some ⟨200, .auth "Login successful" (k.sign ⟨user.id, .str user.username⟩ now)
                  ⟨user.id, .str user.username, .str user.email⟩⟩ := by
              simp [login, hm, hf, hc]
            rw [hlog] at hr
            injection hr with hr
            subst hr
            refine ⟨user, hrow.1, ?_, rfl⟩
            rcases hrow.2.1 with hx | hx
            · exact Or.inl (by rw [hid, hx])
            · exact Or.inr (by rw [hid, hx])
          · have hlog : login k realText now username (.str pw) s =
                some ⟨401, .error "Invalid credentials"⟩ := by
              simp [login, hm, hf, hc]
            rw [hlog] at hr
            injection hr with hr
            subst hr
            simp at h
        | undefined => simp [login, hm, hf] at hr
        | null => simp [login, hm, hf] at hr
        | bool b => simp [login, hm, hf] at hr
        | num n => simp [login, hm, hf] at hr
        | nan => simp [login, hm, hf] at hr

/-- The token theorem at the seeded store: a new user registers with a string
username, the sample user logs in. -/
theorem token_claims_are_user_row_witness :
    (register demoCrypto demoRealText 4 (.str "bob") (.str "bob@example.com") (.str "hunter2")
        (seeded demoCrypto 0)).1.status = 201
    ∧ login demoCrypto demoRealText 4 (.str "admin") (.str "password123") (seeded demoCrypto 0)
        = some ⟨200, .auth "Login successful" "admin"
            ⟨1, .str "admin", .str "admin@example.com"⟩⟩
    ∧ (∃ row, (register demoCrypto demoRealText 4 (.str "bob") (.str "bob@example.com")
          (.str "hunter2") (seeded demoCrypto 0)).2.users = (seeded demoCrypto 0).users ++ [row]
        ∧ row.username = "bob"
        ∧ (register demoCrypto demoRealText 4 (.str "bob") (.str "bob@example.com")
            (.str "hunter2") (seeded demoCrypto 0)).1.body
            = .auth "User created successfully" (demoCrypto.sign ⟨row.id, .str row.username⟩ 4)
                ⟨row.id, .str row.username, .str "bob@example.com"⟩)
    ∧ (∃ row ∈ (seeded demoCrypto 0).users,
        (bindText demoRealText (.str "admin") = some row.username
          ∨ bindText demoRealText (.str "admin") = some row.email)
        ∧ (⟨200, .auth "Login successful" "admin"
            ⟨1, .str "admin", .str "admin@example.com"⟩⟩ : Response).body
            = .auth "Login successful" (demoCrypto.sign ⟨row.id, .str row.username⟩ 4)
                ⟨row.id, .str row.username, .str row.email⟩) :=
  have h1 : (register demoCrypto demoRealText 4 (.str "bob") (.str "bob@example.com")
      (.str "hunter2") (seeded demoCrypto 0)).1.status = 201 := by decide
  have h2 : login demoCrypto demoRealText 4 (.str "admin") (.str "password123")
      (seeded demoCrypto 0)
      = some ⟨200, .auth "Login successful" "admin"
          ⟨1, .str "admin", .str "admin@example.com"⟩⟩ := by decide
  ⟨h1, h2,
    (by
      obtain ⟨row, e1, _, _, _, _, e6⟩ :=
        (token_claims_are_user_row demoCrypto demoRealText 4 (seeded demoCrypto 0)).1
          (.str "bob") (.str "bob@example.com") (.str "hunter2") h1
      exact ⟨row, e1, (e6 "bob" rfl).1, (e6 "bob" rfl).2⟩),
    (token_claims_are_user_row demoCrypto demoRealText 4 (seeded demoCrypto 0)).2
      (.str "admin") (.str "password123") _ h2 rfl⟩

/-! ## C10: status and priority domains -/

/-- C10 as stated fails: the handlers store any status. From the seeded store,
one create request with status `bogus` leads to a store that has a row with
that status, outside the domain. -/
theorem unchecked_status_is_stored :
    ∃ t ∈ (run decimalId demoRealText (seeded demoCrypto 0)
        [.create 1 ⟨1, .str "admin"⟩ ⟨.str "Write spec", .undefined, .str "bogus",
            .undefined⟩]).tasks,
      t.status = some "bogus" ∧ inDomain t = false := by
  decide

/-- C10, amended: from the seeded store, any sequence of create and update
requests that each keep to the domains (see `respectsDomains`) leads to a store
in which every task row has its status and its priority in the domain. -/
theorem domains_kept_by_conforming_requests (realText : Int → String) (idOf : String → Option Nat)
    (k : Crypto) (t0 : Nat)
    (reqs : List TaskRequest) (hreqs : ∀ r ∈ reqs, respectsDomains r = true) :
    ∀ t ∈ (run idOf realText (seeded k t0) reqs).tasks, inDomain t = true := by
  apply run_inDomain realText idOf reqs (seeded k t0) hreqs
  intro t ht
  simp only [seeded, sampleTasks, List.mem_cons, List.mem_singleton, List.not_mem_nil,
    or_false] at ht
  rcases ht with h | h | h | h | h <;> subst h <;> rfl

/-- The domain theorem on a create with defaults followed by an update of the
status of the created task. -/
theorem domains_kept_by_conforming_requests_witness :
    (∀ r ∈ [TaskRequest.create 1 ⟨1, .str "admin"⟩
        ⟨.str "Write spec", .undefined, .undefined, .str "high"⟩,
        TaskRequest.update 2 ⟨1, .str "admin"⟩ "6"
            ⟨.undefined, .undefined, .str "completed", .undefined⟩],
      respectsDomains r = true)
    ∧ ∀ t ∈ (run decimalId demoRealText (seeded demoCrypto 0)
        [TaskRequest.create 1 ⟨1, .str "admin"⟩
            ⟨.str "Write spec", .undefined, .undefined, .str "high"⟩,
          TaskRequest.update 2 ⟨1, .str "admin"⟩ "6"
            ⟨.undefined, .undefined, .str "completed", .undefined⟩]).tasks,
      inDomain t = true :=
  have h : ∀ r ∈ [TaskRequest.create 1 ⟨1, .str "admin"⟩
        ⟨.str "Write spec", .undefined, .undefined, .str "high"⟩,
      TaskRequest.update 2 ⟨1, .str "admin"⟩ "6"
          ⟨.undefined, .undefined, .str "completed", .undefined⟩],
      respectsDomains r = true := by decide
  ⟨h, domains_kept_by_conforming_requests demoRealText decimalId demoCrypto 0 _ h⟩

/-! ## C11: create -/

/-- C11 as stated fails for a title that is present and not empty but falsy:
a create with the title `0` on the seeded store is answered 400
`Title is required` and inserts nothing, though the title is neither missing
nor the empty string. And a value that is not a string is not stored as given:
the title 3000000000 and the status `true` are stored as the texts
`3000000000.0` and `1`. -/
theorem falsy_title_is_refused :
    JsVal.num 0 ≠ JsVal.undefined ∧ JsVal.num 0 ≠ JsVal.str ""
    ∧ postTask demoRealText 3 ⟨1, .str "admin"⟩ ⟨.num 0, .undefined, .undefined, .undefined⟩
        (seeded demoCrypto 0)
        = (⟨400, .error "Title is required"⟩, seeded demoCrypto 0)
    ∧ (postTask demoRealText 3 ⟨1, .str "admin"⟩
        ⟨.num 3000000000, .undefined, .bool true, .undefined⟩ (seeded demoCrypto 0)).2.tasks
      = (seeded demoCrypto 0).tasks
          ++ [⟨6, some "3000000000.0", none, some "1", some "medium", 1, 3, 3⟩] := by
  decide

/-- C11, amended: create. A falsy title (missing, `null`, `false`, 0 or the
empty string) is answered 400 `Title is required` and the store stays as it
was. A truthy title makes the store gain exactly one task row, at the end of
the table: id the next counter value, owner the caller, title and description
as SQLite stores the request's values, status `pending` when the body has no
status and priority `medium` when it has no priority, a supplied status or
priority as SQLite stores it, both timestamps the current instant; users are
untouched; and the answer is 201 with the new id and the request's values
after the defaults, the values the row stores. What SQLite stores for a string
is the string, for `null` it is `NULL`, for a 32-bit integer the numeral, for
any other number the text of the `REAL`, for a boolean `1` or `0`. -/
theorem postTask_creates_one_row (realText : Int → String) (now : Nat) (user : Claims)
    (b : TaskBody) (s : Store) :
    (JsVal.undefined.truthy = false ∧ JsVal.null.truthy = false
      ∧ (JsVal.bool false).truthy = false ∧ (JsVal.num 0).truthy = false
      ∧ (JsVal.str "").truthy = false)
    ∧ (b.title.truthy = false →
        postTask realText now user b s = (⟨400, .error "Title is required"⟩, s))
    ∧ (b.title.truthy = true →
        ∃ row echo,
          (postTask realText now user b s).2.tasks = s.tasks ++ [row]
          ∧ (postTask realText now user b s).2.users = s.users
          ∧ (postTask realText now user b s).2.userSeq = s.userSeq
          ∧ (postTask realText now user b s).2.taskSeq = row.id
          ∧ row.id = s.taskSeq + 1
          ∧ row.user_id = user.id
          ∧ row.created_at = now ∧ row.updated_at = now
          ∧ (postTask realText now user b s).1
              = ⟨201, .created "Task created successfully" echo⟩
          ∧ echo.id = row.id
          ∧ echo.title = b.title ∧ echo.description = b.description
          ∧ echo.status = (if b.status = .undefined then .str "pending" else b.status)
          ∧ echo.priority = (if b.priority = .undefined then .str "medium" else b.priority)
          ∧ row.title = bindText realText echo.title
          ∧ row.description = bindText realText echo.description
          ∧ row.status = bindText realText echo.status
          ∧ row.priority = bindText realText echo.priority)
    ∧ (∀ v : String, bindText realText (.str v) = some v)
    ∧ (∀ n : Int, bindText realText (.num n)
        = some (if -2147483648 ≤ n ∧ n ≤ 2147483647 then toString n else realText n))
    ∧ (∀ c : Bool, bindText realText (.bool c) = some (if c then "1" else "0"))
    ∧ bindText realText .null = none ∧ bindText realText .undefined = none := by
  have hnum : ∀ n : Int, bindText realText (.num n)
      = some (if -2147483648 ≤ n ∧ n ≤ 2147483647 then toString n else realText n) := by
    intro n
    by_cases h1 : -2147483648 ≤ n <;> by_cases h2 : n ≤ 2147483647 <;>
      simp [bindText, isInt32, h1, h2]
  refine ⟨⟨rfl, rfl, rfl, rfl, rfl⟩, ?_, ?_, fun _ => rfl, hnum, fun _ => rfl, rfl, rfl⟩
  · intro h
    simp [postTask, h]
  · intro h
    refine ⟨⟨s.taskSeq + 1, bindText realText b.title, bindText realText b.description,
        bindText realText (orDefault b.status (.str "pending")),
        bindText realText (orDefault b.priority (.str "medium")), user.id, now, now⟩,
      ⟨s.taskSeq + 1, b.title, b.description, orDefault b.status (.str "pending"),
        orDefault b.priority (.str "medium")⟩, ?_⟩
    simp [postTask, h, orDefault]

/-- The create theorem on the spec's example: title `Write spec` and priority
`high` on the seeded store give a row with status `pending` and priority
`high`; an empty title is refused. -/
theorem postTask_creates_one_row_witness :
    (JsVal.str "Write spec").truthy = true
    ∧ (JsVal.str "").truthy = false
    ∧ (∃ row echo,
        (postTask demoRealText 3 ⟨1, .str "admin"⟩
            ⟨.str "Write spec", .undefined, .undefined, .str "high"⟩
            (seeded demoCrypto 0)).2.tasks = (seeded demoCrypto 0).tasks ++ [row]
        ∧ row.status = some "pending" ∧ row.priority = some "high"
        ∧ row.title = some "Write spec" ∧ row.user_id = 1 ∧ row.id = 6
        ∧ (postTask demoRealText 3 ⟨1, .str "admin"⟩
            ⟨.str "Write spec", .undefined, .undefined, .str "high"⟩
            (seeded demoCrypto 0)).1 = ⟨201, .created "Task created successfully" echo⟩
        ∧ echo = ⟨6, .str "Write spec", .undefined, .str "pending", .str "high"⟩)
    ∧ postTask demoRealText 3 ⟨1, .str "admin"⟩ ⟨.str "", .undefined, .undefined, .str "high"⟩
        (seeded demoCrypto 0)
        = (⟨400, .error "Title is required"⟩, seeded demoCrypto 0)
    ∧ (postTask demoRealText 3 ⟨1, .str "admin"⟩
        ⟨.str "Write spec", .undefined, .undefined, .str "high"⟩ (seeded demoCrypto 0)).2.tasks
        = (seeded demoCrypto 0).tasks
            ++ [⟨6, some "Write spec", none, some "pending", some "high", 1, 3, 3⟩] :=
  have h1 : (JsVal.str "Write spec").truthy = true := by decide
  have h2 : (JsVal.str "").truthy = false := by decide
  ⟨h1, h2,
    (by
      obtain ⟨row, echo, e1, _, _, _, e5, e6, _, _, e9, e10, e11, e12, e13, e14, e15, _, e17,
          e18⟩ :=
        (postTask_creates_one_row demoRealText 3 ⟨1, .str "admin"⟩
          ⟨.str "Write spec", .undefined, .undefined, .str "high"⟩
          (seeded demoCrypto 0)).2.2.1 h1
      refine ⟨row, echo, e1, ?_, ?_, ?_, e6, e5, e9, ?_⟩
      · rw [e17, e13]; rfl
      · rw [e18, e14]; rfl
      · rw [e15, e11]; rfl
      · cases echo
        simp only at e10 e11 e12 e13 e14
        rw [e10, e11, e12, e13, e14, e5]
        rfl),
    (postTask_creates_one_row demoRealText 3 ⟨1, .str "admin"⟩
      ⟨.str "", .undefined, .undefined, .str "high"⟩ (seeded demoCrypto 0)).2.1 h2,
    by decide⟩

/-! ## C12: fields an update takes -/

theorem buildUpdate_updates (user : Claims) (taskId : String) (b : TaskBody) :
    (buildUpdate user taskId b).1
      = (if b.title.truthy then ["title = ?"] else [])
        ++ (if b.description ≠ .undefined then ["description = ?"] else [])
        ++ (if b.status.truthy then ["status = ?"] else [])
        ++ (if b.priority.truthy then ["priority = ?"] else [])
        ++ ["updated_at = CURRENT_TIMESTAMP"] := by
  unfold buildUpdate
  by_cases h1 : b.title.truthy <;> by_cases h2 : b.description = .undefined <;>
  by_cases h3 : b.status.truthy <;> by_cases h4 : b.priority.truthy <;>
  simp [h1, h2, h3, h4]

theorem buildUpdate_params (user : Claims) (taskId : String) (b : TaskBody) :
    (buildUpdate user taskId b).2
      = (if b.title.truthy then [b.title] else [])
        ++ (if b.description ≠ .undefined then [b.description] else [])
        ++ (if b.status.truthy then [b.status] else [])
        ++ (if b.priority.truthy then [b.priority] else [])
        ++ [.str taskId, .num user.id] := by
  unfold buildUpdate
  by_cases h1 : b.title.truthy <;> by_cases h2 : b.description = .undefined <;>
  by_cases h3 : b.status.truthy <;> by_cases h4 : b.priority.truthy <;>
  simp [h1, h2, h3, h4]

theorem putTask_status_of_supplied (realText : Int → String) (idOf : String → Option Nat)
    (now : Nat) (user : Claims)
    (taskId : String) (b : TaskBody) (s : Store) (hs : suppliesField b = true) :
    (putTask idOf realText now user taskId b s).1 ≠ ⟨400, .error "No fields to update"⟩ := by
  rw [putTask_supplied realText idOf now user taskId b s hs]
  simp only
  split <;> simp

/-- C12: which fields of a `PUT` body the update takes. The `SET` list holds
`title = ?`, `status = ?`, `priority = ?` exactly when the field is truthy, and
`description = ?` exactly when the field is not `undefined`; the empty string
is falsy, and neither it nor `null` is `undefined`. The answer is 400
`No fields to update` exactly when title, status and priority are falsy and
description is `undefined`. A body with only an empty title is refused that
way, with the store unchanged; a body with only an empty description (or a
`null` one) is run as an update that writes the empty text (or `NULL`) and the
timestamp on the caller's row with that id, answered 200, or 404 when there is
no such row. -/
theorem putTask_supplied_fields (realText : Int → String) (idOf : String → Option Nat) (now : Nat)
    (user : Claims)
    (taskId : String) (b : TaskBody) (s : Store) :
    ("title = ?" ∈ (buildUpdate user taskId b).1 ↔ b.title.truthy = true)
    ∧ ("description = ?" ∈ (buildUpdate user taskId b).1 ↔ b.description ≠ .undefined)
    ∧ ("status = ?" ∈ (buildUpdate user taskId b).1 ↔ b.status.truthy = true)
    ∧ ("priority = ?" ∈ (buildUpdate user taskId b).1 ↔ b.priority.truthy = true)
    ∧ (JsVal.str "").truthy = false ∧ JsVal.str "" ≠ .undefined ∧ JsVal.null ≠ .undefined
    ∧ ((putTask idOf realText now user taskId b s).1 = ⟨400, .error "No fields to update"⟩
        ↔ (b.title.truthy = false ∧ b.status.truthy = false ∧ b.priority.truthy = false
            ∧ b.description = .undefined))
    ∧ putTask idOf realText now user taskId ⟨.str "", .undefined, .undefined, .undefined⟩ s
        = (⟨400, .error "No fields to update"⟩, s)
    ∧ putTask idOf realText now user taskId ⟨.undefined, .str "", .undefined, .undefined⟩ s
        = (if (s.tasks.filter (ownedRow idOf (.str taskId) (.num user.id))).length = 0 then
              ⟨404, .error "Task not found"⟩
            else ⟨200, .message "Task updated successfully"⟩,
            { s with tasks := s.tasks.map (fun r =>
                if ownedRow idOf (.str taskId) (.num user.id) r then
                  { r with description := some "", updated_at := now }
                else r) })
    ∧ putTask idOf realText now user taskId ⟨.undefined, .null, .undefined, .undefined⟩ s
        = (if (s.tasks.filter (ownedRow idOf (.str taskId) (.num user.id))).length = 0 then
              ⟨404, .error "Task not found"⟩
            else ⟨200, .message "Task updated successfully"⟩,
            { s with tasks := s.tasks.map (fun r =>
                if ownedRow idOf (.str taskId) (.num user.id) r then
                  { r with description := none, updated_at := now }
                else r) }) := by
  have hu := buildUpdate_updates user taskId b
  refine ⟨?_, ?_, ?_, ?_, rfl, by decide, by decide, ?_, ?_, ?_, ?_⟩
  · rw [hu]
    by_cases h1 : b.title.truthy <;> by_cases h2 : b.description = .undefined <;>
    by_cases h3 : b.status.truthy <;> by_cases h4 : b.priority.truthy <;>
    simp [h1, h2, h3, h4]
  · rw [hu]
    by_cases h1 : b.title.truthy <;> by_cases h2 : b.description = .undefined <;>
    by_cases h3 : b.status.truthy <;> by_cases h4 : b.priority.truthy <;>
    simp [h1, h2, h3, h4]
  · rw [hu]
    by_cases h1 : b.title.truthy <;> by_cases h2 : b.description = .undefined <;>
    by_cases h3 : b.status.truthy <;> by_cases h4 : b.priority.truthy <;>
    simp [h1, h2, h3, h4]
  · rw [hu]
    by_cases h1 : b.title.truthy <;> by_cases h2 : b.description = .undefined <;>
    by_cases h3 : b.status.truthy <;> by_cases h4 : b.priority.truthy <;>
    simp [h1, h2, h3, h4]
  · constructor
    · intro h
      cases hs : suppliesField b with
      | true => exact absurd h (putTask_status_of_supplied realText idOf now user taskId b s hs)
      | false =>
        simp only [suppliesField, Bool.or_eq_false_iff, decide_eq_false_iff_not, not_not] at hs
        exact ⟨hs.1.1.1, hs.1.2, hs.2, hs.1.1.2⟩
    · rintro ⟨h1, h3, h4, h2⟩
      have hs : suppliesField b = false := by
        simp [suppliesField, h1, h2, h3, h4]
      rw [putTask_not_supplied realText idOf now user taskId b s hs]
  · exact putTask_not_supplied realText idOf now user taskId _ s rfl
  · rw [putTask_supplied realText idOf now user taskId
        ⟨.undefined, .str "", .undefined, .undefined⟩ s rfl]
    rfl
  · rw [putTask_supplied realText idOf now user taskId
        ⟨.undefined, .null, .undefined, .undefined⟩ s rfl]
    rfl

/-! ## C13: placeholders and parameters -/

theorem buildListQuery_text (user : Claims) (q : ListQuery) :
    (buildListQuery user q).1 = listSqlOf (ofQuery q.status).truthy
        (ofQuery q.priority).truthy := by
  cases h1 : (ofQuery q.status).truthy <;> cases h2 : (ofQuery q.priority).truthy <;>
    simp only [buildListQuery, listSqlOf, h1, h2] <;> rfl

theorem buildListQuery_params (user : Claims) (q : ListQuery) :
    (buildListQuery user q).2
      = [JsVal.num user.id]
        ++ (if (ofQuery q.status).truthy then [ofQuery q.status] else [])
        ++ (if (ofQuery q.priority).truthy then [ofQuery q.priority] else [])
        ++ [parseInt (withDefault q.limit 50), parseInt (withDefault q.offset 0)] := by
  cases h1 : (ofQuery q.status).truthy <;> cases h2 : (ofQuery q.priority).truthy <;>
    simp only [buildListQuery, h1, h2] <;> rfl

theorem buildUpdate_setListOf (user : Claims) (taskId : String) (b : TaskBody) :
    (buildUpdate user taskId b).1
      = setListOf b.title.truthy (decide (b.description ≠ .undefined)) b.status.truthy
          b.priority.truthy := by
  rw [buildUpdate_updates]
  simp only [setListOf, decide_eq_true_eq]

theorem listSqlOf_placeholders : ∀ st pr : Bool,
    placeholders (listSqlOf st pr) = 3 + (if st then 1 else 0) + (if pr then 1 else 0)
    ∧ placeholderTargets (listSqlOf st pr)
        = ["user_id"] ++ (if st then ["status"] else []) ++ (if pr then ["priority"] else [])
          ++ ["LIMIT", "OFFSET"] := by
  decide

theorem setListOf_placeholders : ∀ t d st pr : Bool,
    placeholders (updateSql (setListOf t d st pr))
        = 2 + (if t then 1 else 0) + (if d then 1 else 0) + (if st then 1 else 0)
          + (if pr then 1 else 0)
    ∧ placeholderTargets (updateSql (setListOf t d st pr))
        = (if t then ["title"] else []) ++ (if d then ["description"] else [])
          ++ (if st then ["status"] else []) ++ (if pr then ["priority"] else [])
          ++ ["id", "user_id"] := by
  decide

/-- C13: placeholders and parameters line up. For every list request: the
text has as many `?` as there are parameters; pairing each placeholder, in
order, with the parameter in its position gives the owner id against
`user_id`, then the status and the priority filters against their columns when
supplied, then the parsed limit and offset against `LIMIT` and `OFFSET`; and
two requests that supply the same filters get the same text, whatever the
values and the caller. For every update request: the text has as many `?` as
there are parameters; the pairing gives the supplied title, description,
status, priority against their columns, in that order, then the task id
against `id` and the owner id against `user_id`; and two requests that supply
the same fields get the same text, whatever the values, the id and the caller. -/
theorem placeholders_match_params (user : Claims) (q : ListQuery) (taskId : String)
    (b : TaskBody) :
    placeholders (buildListQuery user q).1 = (buildListQuery user q).2.length
    ∧ (placeholderTargets (buildListQuery user q).1).length = (buildListQuery user q).2.length
    ∧ (placeholderTargets (buildListQuery user q).1).zip (buildListQuery user q).2
        = [("user_id", JsVal.num user.id)]
          ++ (if (ofQuery q.status).truthy then [("status", ofQuery q.status)] else [])
          ++ (if (ofQuery q.priority).truthy then [("priority", ofQuery q.priority)] else [])
          ++ [("LIMIT", parseInt (withDefault q.limit 50)),
              ("OFFSET", parseInt (withDefault q.offset 0))]
    ∧ (∀ (user' : Claims) (q' : ListQuery),
        (ofQuery q'.status).truthy = (ofQuery q.status).truthy →
        (ofQuery q'.priority).truthy = (ofQuery q.priority).truthy →
        (buildListQuery user' q').1 = (buildListQuery user q).1)
    ∧ placeholders (updateSql (buildUpdate user taskId b).1) = (buildUpdate user taskId b).2.length
    ∧ (placeholderTargets (updateSql (buildUpdate user taskId b).1)).length
        = (buildUpdate user taskId b).2.length
    ∧ (placeholderTargets (updateSql (buildUpdate user taskId b).1)).zip
          (buildUpdate user taskId b).2
        = (if b.title.truthy then [("title", b.title)] else [])
          ++ (if b.description ≠ .undefined then [("description", b.description)] else [])
          ++ (if b.status.truthy then [("status", b.status)] else [])
          ++ (if b.priority.truthy then [("priority", b.priority)] else [])
          ++ [("id", JsVal.str taskId), ("user_id", JsVal.num user.id)]
    ∧ (∀ (user' : Claims) (taskId' : String) (b' : TaskBody),
        b'.title.truthy = b.title.truthy →
        (b'.description = .undefined ↔ b.description = .undefined) →
        b'.status.truthy = b.status.truthy →
        b'.priority.truthy = b.priority.truthy →
        updateSql (buildUpdate user' taskId' b').1 = updateSql (buildUpdate user taskId b).1) := by
  have hl := listSqlOf_placeholders (ofQuery q.status).truthy (ofQuery q.priority).truthy
  have hu := setListOf_placeholders b.title.truthy (decide (b.description ≠ .undefined))
    b.status.truthy b.priority.truthy
  refine ⟨?_, ?_, ?_, ?_, ?_, ?_, ?_, ?_⟩
  · rw [buildListQuery_text, buildListQuery_params, hl.1]
    cases (ofQuery q.status).truthy <;> cases (ofQuery q.priority).truthy <;> rfl
  · rw [buildListQuery_text, buildListQuery_params, hl.2]
    cases (ofQuery q.status).truthy <;> cases (ofQuery q.priority).truthy <;> rfl
  · rw [buildListQuery_text, buildListQuery_params, hl.2]
    cases (ofQuery q.status).truthy <;> cases (ofQuery q.priority).truthy <;> rfl
  · intro user' q' h1 h2
    rw [buildListQuery_text, buildListQuery_text, h1, h2]
  · rw [buildUpdate_setListOf, buildUpdate_params, hu.1]
    by_cases h1 : b.title.truthy <;> by_cases h2 : b.description = .undefined <;>
    by_cases h3 : b.status.truthy <;> by_cases h4 : b.priority.truthy <;>
    simp [h1, h2, h3, h4]
  · rw [buildUpdate_setListOf, buildUpdate_params, hu.2]
    by_cases h1 : b.title.truthy <;> by_cases h2 : b.description = .undefined <;>
    by_cases h3 : b.status.truthy <;> by_cases h4 : b.priority.truthy <;>
    simp [h1, h2, h3, h4]
  · rw [buildUpdate_setListOf, buildUpdate_params, hu.2]
    by_cases h1 : b.title.truthy <;> by_cases h2 : b.description = .undefined <;>
    by_cases h3 : b.status.truthy <;> by_cases h4 : b.priority.truthy <;>
    simp [h1, h2, h3, h4]
  · intro user' taskId' b' h1 h2 h3 h4
    rw [buildUpdate_setListOf, buildUpdate_setListOf, h1, h3, h4]
    have hd : decide (b'.description ≠ .undefined) = decide (b.description ≠ .undefined) := by
      by_cases h : b.description = .undefined
      · simp [h, h2.2 h]
      · have h' : ¬ b'.description = .undefined := fun hx => h (h2.1 hx)
        simp [h, h']
    rw [hd]

/-- The alignment theorem on two list requests that differ in the value of the
status filter and two updates that differ in the value of the status: same
text each time. -/
theorem placeholders_match_params_witness :
    (buildListQuery ⟨2, .str "bob"⟩ ⟨some "pending", none, some "5", none⟩).1
        = (buildListQuery ⟨1, .str "admin"⟩ ⟨some "completed", none, none, none⟩).1
    ∧ updateSql (buildUpdate ⟨2, .str "bob"⟩ "7" ⟨.undefined, .null, .str "pending", .undefined⟩).1
        = updateSql (buildUpdate ⟨1, .str "admin"⟩ "3"
            ⟨.undefined, .str "", .str "completed", .undefined⟩).1
    ∧ placeholders (updateSql (buildUpdate ⟨1, .str "admin"⟩ "3"
          ⟨.undefined, .str "", .str "completed", .undefined⟩).1) = 4 :=
  ⟨(placeholders_match_params ⟨1, .str "admin"⟩ ⟨some "completed", none, none, none⟩ "3"
      ⟨.undefined, .str "", .str "completed", .undefined⟩).2.2.2.1
      ⟨2, .str "bob"⟩ ⟨some "pending", none, some "5", none⟩ (by decide) (by decide),
    (placeholders_match_params ⟨1, .str "admin"⟩ ⟨some "completed", none, none, none⟩ "3"
      ⟨.undefined, .str "", .str "completed", .undefined⟩).2.2.2.2.2.2.2
      ⟨2, .str "bob"⟩ "7" ⟨.undefined, .null, .str "pending", .undefined⟩
      (by decide) (by decide) (by decide) (by decide),
    (placeholders_match_params ⟨1, .str "admin"⟩ ⟨some "completed", none, none, none⟩ "3"
      ⟨.undefined, .str "", .str "completed", .undefined⟩).2.2.2.2.1⟩

end TaskServer
